import Mathlib

/-!
Flocking step of `boids.c`

A shallow embedding of the per-frame update of `src/src/boids.c` (the body of the
main loop, lines 110-164, together with `GetTriangle` and `StepPosition`), of the
initialisation loop (lines 91-100) and of the raylib / raymath helpers they call.

Modelling choices.

* The definitions are written once, over a type `α` of numbers that has the
  arithmetic operations and comparisons the program uses; `sqrtf`, `cosf` and `sinf`
  are parameters `sqrt cos sin : α → α`.  Two readings are used.  At a linearly
  ordered field, in particular `ℝ` with `Real.sqrt`, `Real.cos`, `Real.sin`, the
  definitions are the program in exact real arithmetic (and at `ℚ` they can be
  executed).  At `F32`, the IEEE 754 binary32 arithmetic defined below, they are
  the program as C evaluates it on `float`, every operation rounded.  The decimal
  literals `0.1f`, `0.001f`, `0.05f` are the quotients `1/10`, `1/1000`, `1/20`,
  whose rounded values are those literals.
* `GetRandomValue` is a parameter `rand`, the value of the `k`-th call for a given
  range; its contract is the predicate `RandomInRange`.
* The arrays of `NUM_BIRDS` cells are total maps from indices; the loops only read
  and write cells below the bird count, which is a parameter `n` of the loops
  (`NUM_BIRDS = 200` in the source).
* A C `for` loop `for (k = k0; k < n; k++)` is a recursion on the number `left` of
  indices still to visit (`left = n - k`), so `left = 0` is the failure of the test
  `k < n`; no fuel is involved and every loop is total.
* The frame-local arrays `num_vicinity`, `num_too_close`, `mass_centre`,
  `repulsion`, `dir_mean` are zeroed every frame and cell `i` is touched only by
  iteration `i` of the main loop, so the five cells of one bird are a record
  `Aggregates`.
-/

namespace Boids

/-! ## Constants (lines 29-38, 83-84) -/

def NUM_BIRDS : Nat := 200
def BIRD_SIZE : Int := 10
def VICINITY_DIST : Int := BIRD_SIZE * 20
def TOO_CLOSE_DIST : Int := BIRD_SIZE * 3 / 2
def SCREEN_MARGIN : Int := 100
def screenWidth : Int := 1440
def screenHeight : Int := 1080

section Model

variable {α : Type} [Zero α] [One α] [NatCast α] [IntCast α] [Add α] [Sub α] [Mul α] [Div α]
  [Neg α] [LT α] [LE α] [DecidableRel (α := α) (· < ·)] [DecidableRel (α := α) (· ≤ ·)]

def REPULSION_FACTOR : α := 1 / 10
def MASS_ATTRACTION_FACTOR : α := 1 / 1000
def ALIGNMENT_FACTOR : α := 1 / 20
def TURN_SPEED : α := 1 / 10

/-! ## Data (lines 40-50 and raylib's `Vector2`) -/

structure Vector2 (α : Type) where
  x : α
  y : α
  deriving DecidableEq

structure Triangle (α : Type) where
  p1 : Vector2 α
  p2 : Vector2 α
  p3 : Vector2 α
  deriving DecidableEq

structure Birds (α : Type) where
  pos : Nat → Vector2 α
  dir : Nat → Vector2 α
  triangle : Nat → Triangle α

/-- The cells with index `i` of the five frame-local arrays (lines 110-115). -/
structure Aggregates (α : Type) where
  num_vicinity : Nat
  num_too_close : Nat
  mass_centre : Vector2 α
  repulsion : Vector2 α
  dir_mean : Vector2 α
  deriving DecidableEq

/-! ## raymath / raylib helpers -/

/-- The raymath function `Vector2Add`. -/
def Vector2Add (v1 v2 : Vector2 α) : Vector2 α := ⟨v1.x + v2.x, v1.y + v2.y⟩

/-- The raymath function `Vector2Subtract`. -/
def Vector2Subtract (v1 v2 : Vector2 α) : Vector2 α := ⟨v1.x - v2.x, v1.y - v2.y⟩

/-- The raymath function `Vector2Scale`. -/
def Vector2Scale (v : Vector2 α) (scale : α) : Vector2 α := ⟨v.x * scale, v.y * scale⟩

/-- The raymath function `Vector2Length`: `sqrtf((v.x*v.x) + (v.y*v.y))`. -/
def Vector2Length (sqrt : α → α) (v : Vector2 α) : α := sqrt (v.x * v.x + v.y * v.y)

/-- The raymath function `Vector2ClampValue`: a vector of squared length `0` is
returned unchanged (the guard `if (length > 0.0f)`), any other vector is rescaled to
length `min` when shorter and to length `max` when longer. -/
def Vector2ClampValue (sqrt : α → α) (v : Vector2 α) (min max : α) : Vector2 α :=
  let length := v.x * v.x + v.y * v.y
  if 0 < length then
    let length := sqrt length
    let scale : α :=
      if length < min then min / length
      else if length > max then max / length
      else 1
    ⟨v.x * scale, v.y * scale⟩
  else v

/-- The raylib function `CheckCollisionPointCircle`: the squared distance between
`point` and `center` is compared, with `<=`, to the squared radius.  (Older raylib
releases compare the square root of the same sum with the radius, which in exact
arithmetic is the same test for a radius that is not negative.) -/
def CheckCollisionPointCircle (point center : Vector2 α) (radius : α) : Bool :=
  decide ((point.x - center.x) * (point.x - center.x)
    + (point.y - center.y) * (point.y - center.y) ≤ radius * radius)

/-! ## `GetTriangle` (lines 52-64) -/

/-- The function `GetTriangle`.  The static locals are `height = 5*BIRD_SIZE/2` and
`half_width = BIRD_SIZE` (integer arithmetic).  For a zero `dir` the C program divides
by zero: in binary32 arithmetic the quotient is an infinity and the vertices are NaN;
in a field `1 / 0 = 0`, and the statements about the vertices in exact arithmetic
assume `dir ≠ 0`. -/
def GetTriangle (sqrt : α → α) (pos dir : Vector2 α) : Triangle α :=
  let height : Int := 5 * BIRD_SIZE / 2
  let half_width : Int := BIRD_SIZE
  let unit_dir := Vector2Scale dir (1 / Vector2Length sqrt dir)
  let dir_scaled := Vector2Scale unit_dir (height : α)
  let perp_vector : Vector2 α := ⟨unit_dir.y, -unit_dir.x⟩
  let perp_vector_scaled := Vector2Scale perp_vector (half_width : α)
  { p1 := Vector2Add pos dir_scaled
    p2 := Vector2Add pos perp_vector_scaled
    p3 := Vector2Subtract pos perp_vector_scaled }

/-! ## `StepPosition` (lines 66-73) -/

/-- The body of the loop of `StepPosition` for index `i` (lines 69-71). -/
def stepPositionBird (sqrt : α → α) (b : Birds α) (i : Nat) : Birds α :=
  let step_amount : α := 2
  let step := Vector2Scale (b.dir i) step_amount
  let pos := Function.update b.pos i (Vector2Add (b.pos i) step)
  { pos := pos
    dir := b.dir
    triangle := Function.update b.triangle i (GetTriangle sqrt (pos i) (b.dir i)) }

/-- The loop of `StepPosition` from index `i` with `left` indices to go. -/
def stepPositionLoop (sqrt : α → α) : Nat → Nat → Birds α → Birds α
  | 0, _, b => b
  | left + 1, i, b => stepPositionLoop sqrt left (i + 1) (stepPositionBird sqrt b i)

/-- The function `StepPosition` for `n` birds. -/
def StepPosition (sqrt : α → α) (n : Nat) (b : Birds α) : Birds α :=
  stepPositionLoop sqrt n 0 b

/-! ## The main loop (lines 110-164) -/

/-- The zero-initialised cells (lines 110-115). -/
def Aggregates.zero : Aggregates α :=
  { num_vicinity := 0, num_too_close := 0,
    mass_centre := ⟨0, 0⟩, repulsion := ⟨0, 0⟩, dir_mean := ⟨0, 0⟩ }

/-- The body of the inner loop for the pair `(i, j)` (lines 120-133). -/
def scanPair (b : Birds α) (i j : Nat) (a : Aggregates α) : Aggregates α :=
  let cur_bird_pos := b.pos i
  let other_bird_pos := b.pos j
  let other_bird_dir := b.dir j
  let is_vicinity := CheckCollisionPointCircle other_bird_pos cur_bird_pos (VICINITY_DIST : α)
  let a1 : Aggregates α :=
    if is_vicinity then
      { a with
        num_vicinity := a.num_vicinity + 1
        mass_centre := Vector2Add a.mass_centre other_bird_pos
        dir_mean := Vector2Add a.dir_mean other_bird_dir }
    else a
  let is_too_close := CheckCollisionPointCircle other_bird_pos cur_bird_pos (TOO_CLOSE_DIST : α)
  if is_too_close then
    { a1 with
      num_too_close := a1.num_too_close + 1
      repulsion := Vector2Add a1.repulsion (Vector2Subtract cur_bird_pos other_bird_pos) }
  else a1

/-- The inner loop `for (int j = 0; (j < NUM_BIRDS) && i != j; j++)` (line 119),
from index `j` with `left` indices below the bird count still to go: the loop is
left as soon as `i != j` fails. -/
def scanLoop (b : Birds α) (i : Nat) : Nat → Nat → Aggregates α → Aggregates α
  | 0, _, a => a
  | left + 1, j, a => if i ≠ j then scanLoop b i left (j + 1) (scanPair b i j a) else a

/-- The aggregates of bird `i` after the inner loop (lines 119-134). -/
def scan (n : Nat) (b : Birds α) (i : Nat) : Aggregates α :=
  scanLoop b i n 0 Aggregates.zero

/-- The value of `mass_centre_dir` at line 148 (lines 136-140). -/
def mass_centre_dir (cur_bird_pos : Vector2 α) (a : Aggregates α) : Vector2 α :=
  if a.num_vicinity > 0 then
    let mass_centre := Vector2Scale a.mass_centre (1 / (a.num_vicinity : α))
    Vector2Scale (Vector2Subtract mass_centre cur_bird_pos) MASS_ATTRACTION_FACTOR
  else ⟨0, 0⟩

/-- The value of `dir_mean[i]` at line 148 (lines 137, 142). -/
def dir_mean_scaled (a : Aggregates α) : Vector2 α :=
  if a.num_vicinity > 0 then
    Vector2Scale a.dir_mean (ALIGNMENT_FACTOR / (a.num_vicinity : α))
  else a.dir_mean

/-- The value of `repulsion[i]` at line 148 (lines 144-146). -/
def repulsion_scaled (a : Aggregates α) : Vector2 α :=
  if a.num_too_close > 0 then
    Vector2Scale a.repulsion (REPULSION_FACTOR / (a.num_too_close : α))
  else a.repulsion

/-- The heading assigned at line 148 from the aggregates `a` of bird `i`. -/
def steer (b : Birds α) (i : Nat) (a : Aggregates α) : Vector2 α :=
  Vector2Add (b.dir i)
    (Vector2Add (mass_centre_dir (b.pos i) a)
      (Vector2Add (dir_mean_scaled a) (repulsion_scaled a)))

/-- The four boundary tests of lines 149-160 applied, in order, to the heading `dir`
of a bird at `pos`. -/
def turn (pos dir : Vector2 α) : Vector2 α :=
  let d1 : Vector2 α :=
    if pos.x < (SCREEN_MARGIN : α) then { dir with x := dir.x + TURN_SPEED } else dir
  let d2 : Vector2 α :=
    if pos.x > ((screenWidth - SCREEN_MARGIN : Int) : α) then { d1 with x := d1.x - TURN_SPEED }
    else d1
  let d3 : Vector2 α :=
    if pos.y < (SCREEN_MARGIN : α) then { d2 with y := d2.y + TURN_SPEED } else d2
  if pos.y > ((screenHeight - SCREEN_MARGIN : Int) : α) then { d3 with y := d3.y - TURN_SPEED }
  else d3

/-- The heading of bird `i` right after line 148, in the state `b` in which
iteration `i` of the main loop starts. -/
def headingAfterSteer (n : Nat) (b : Birds α) (i : Nat) : Vector2 α :=
  steer b i (scan n b i)

/-- The heading of bird `i` right before the clamp of line 161, in the state `b` in
which iteration `i` of the main loop starts. -/
def headingBeforeClamp (n : Nat) (b : Birds α) (i : Nat) : Vector2 α :=
  turn (b.pos i) (headingAfterSteer n b i)

/-- One iteration of the main loop (lines 118-161): only `dir[i]` is written. -/
def steerBird (sqrt : α → α) (n : Nat) (b : Birds α) (i : Nat) : Birds α :=
  { b with
    dir := Function.update b.dir i (Vector2ClampValue sqrt (headingBeforeClamp n b i) 1 3) }

/-- The main loop `for (int i = 0; i < NUM_BIRDS; i++)` (line 117) from index `i`
with `left` indices to go. -/
def steerLoop (sqrt : α → α) (n : Nat) : Nat → Nat → Birds α → Birds α
  | 0, _, b => b
  | left + 1, i, b => steerLoop sqrt n left (i + 1) (steerBird sqrt n b i)

/-- The state in which iteration `i` of the main loop starts: the first `i`
iterations have run on the state `b` of the start of the frame. -/
def stateBefore (sqrt : α → α) (n : Nat) (b : Birds α) (i : Nat) : Birds α :=
  steerLoop sqrt n i 0 b

/-- One frame update (lines 110-164): the main loop followed by `StepPosition`. -/
def Step (sqrt : α → α) (n : Nat) (b : Birds α) : Birds α :=
  StepPosition sqrt n (steerLoop sqrt n n 0 b)

/-! ## Definitions used to state the properties -/

/-- A flock with bird 1 one unit inside the left boundary zone, heading `(0, 1)`,
and every other bird at `(700, 500)`, out of its vicinity. -/
def flockEdge : Birds α :=
  { pos := fun j => if j = 1 then ⟨99, 500⟩ else ⟨700, 500⟩
    dir := fun _ => ⟨0, 1⟩
    triangle := fun _ => ⟨⟨0, 0⟩, ⟨0, 0⟩, ⟨0, 0⟩⟩ }

/-- The indices of `l` whose bird lies within radius `r` of bird `i`, as
`CheckCollisionPointCircle` decides it. -/
def within (b : Birds α) (i : Nat) (r : Int) (l : List Nat) : List Nat :=
  l.filter (fun j => CheckCollisionPointCircle (b.pos j) (b.pos i) (r : α))

/-- The sum of a list of vectors, accumulated from the left from `(0, 0)`. -/
def Vector2Sum (l : List (Vector2 α)) : Vector2 α := l.foldl Vector2Add ⟨0, 0⟩

/-- The scenario of the specification placed in a flock of 200: bird 0 at `(0, 0)`
heading `(1, 0)`, bird 1 at `(5, 0)` heading `(-1, 0)`, every other bird far away at
`(1000, 500)`. -/
def flockPair : Birds α :=
  { pos := fun j => if j = 0 then ⟨0, 0⟩ else if j = 1 then ⟨5, 0⟩ else ⟨1000, 500⟩
    dir := fun j => if j = 1 then ⟨-1, 0⟩ else ⟨1, 0⟩
    triangle := fun _ => ⟨⟨0, 0⟩, ⟨0, 0⟩, ⟨0, 0⟩⟩ }

/-- Birds 0 and 1 at the same interior position `(500, 500)` with the same heading
`(1, 0)`, every other bird far away at `(1000, 500)`. -/
def flockTwin : Birds α :=
  { pos := fun j => if j = 0 then ⟨500, 500⟩ else if j = 1 then ⟨500, 500⟩ else ⟨1000, 500⟩
    dir := fun _ => ⟨1, 0⟩
    triangle := fun _ => ⟨⟨0, 0⟩, ⟨0, 0⟩, ⟨0, 0⟩⟩ }

/-- Bird 0 inside the left boundary zone at `(90, 500)`, bird 1 at `(110, 500)`,
every other bird far away at `(1000, 500)`; all headings `(1, 0)`. -/
def flockLeft : Birds α :=
  { pos := fun j => if j = 0 then ⟨90, 500⟩ else if j = 1 then ⟨110, 500⟩ else ⟨1000, 500⟩
    dir := fun _ => ⟨1, 0⟩
    triangle := fun _ => ⟨⟨0, 0⟩, ⟨0, 0⟩, ⟨0, 0⟩⟩ }

/-- Bird 0 at `(500, 500)` heading `(1, 0)`, bird 1 ten units to its right heading
`(-26/25, 0)`, every other bird far away at `(1000, 500)` heading `(1, 0)`. -/
def flockCancel : Birds α :=
  { pos := fun j => if j = 0 then ⟨500, 500⟩ else if j = 1 then ⟨510, 500⟩ else ⟨1000, 500⟩
    dir := fun j => if j = 1 then ⟨-26 / 25, 0⟩ else ⟨1, 0⟩
    triangle := fun _ => ⟨⟨0, 0⟩, ⟨0, 0⟩, ⟨0, 0⟩⟩ }

/-- The neighbours of bird `i` within radius `r` as the specification defines them:
the birds `j ≠ i` of the whole flock, of lower or higher index. -/
def specNeighbours (n : Nat) (b : Birds α) (i : Nat) (r : Int) : List Nat :=
  within b i r ((List.range n).filter (fun j => j ≠ i))

/-- The aggregation of the specification (step 1): the pair body of the program
applied to every bird `j ≠ i` of the flock. -/
def specScan (n : Nat) (b : Birds α) (i : Nat) : Aggregates α :=
  ((List.range n).filter (fun j => j ≠ i)).foldl (fun acc j => scanPair b i j acc)
    Aggregates.zero

/-- The two-pass procedure of the specification: every new heading is computed from
the state `b` of the start of the frame with the aggregation `agg`, the headings are
committed together, and `StepPosition` follows. -/
def StepTwoPass (sqrt : α → α) (agg : Birds α → Nat → Aggregates α) (n : Nat) (b : Birds α) :
    Birds α :=
  StepPosition sqrt n
    { b with
      dir := fun i =>
        if i < n then Vector2ClampValue sqrt (turn (b.pos i) (steer b i (agg b i))) 1 3
        else b.dir i }

/-! ## Initialisation (lines 91-100) -/

/-- The raymath function `Vector2Rotate`, with `cosf` and `sinf` as parameters. -/
def Vector2Rotate (cos sin : α → α) (v : Vector2 α) (angle : α) : Vector2 α :=
  let cosres := cos angle
  let sinres := sin angle
  ⟨v.x * cosres - v.y * sinres, v.x * sinres + v.y * cosres⟩

/-- The contract of the raylib function `GetRandomValue(min, max)`, for a random source
`rand` whose value at `(min, max, k)` is what the `k`-th call returns: an integer
between `min` and `max`, both included. -/
def RandomInRange (rand : Int → Int → Nat → Int) : Prop :=
  ∀ (lo hi : Int) (k : Nat), lo ≤ hi → lo ≤ rand lo hi k ∧ rand lo hi k ≤ hi

/-- The body of the initialisation loop for bird `i` (lines 93-99): the calls of
`GetRandomValue` number `3 i`, `3 i + 1` and `3 i + 2` give the coordinates and the
angle. -/
def initBird (sqrt cos sin : α → α) (rand : Int → Int → Nat → Int) (b : Birds α) (i : Nat) :
    Birds α :=
  let pos : Vector2 α :=
    ⟨((rand 50 (screenWidth - 50) (3 * i) : Int) : α),
      ((rand 50 (screenHeight - 50) (3 * i + 1) : Int) : α)⟩
  let dir_angle : Int := rand 0 359 (3 * i + 2)
  let dir := Vector2Rotate cos sin ⟨1, 0⟩ (dir_angle : α)
  { pos := Function.update b.pos i pos
    dir := Function.update b.dir i dir
    triangle := Function.update b.triangle i (GetTriangle sqrt pos dir) }

/-- The initialisation loop (line 92) from index `i` with `left` indices to go. -/
def initLoop (sqrt cos sin : α → α) (rand : Int → Int → Nat → Int) :
    Nat → Nat → Birds α → Birds α
  | 0, _, b => b
  | left + 1, i, b =>
    initLoop sqrt cos sin rand left (i + 1) (initBird sqrt cos sin rand b i)

/-- The flock after the initialisation loop, from the uninitialised `b`. -/
def Init (sqrt cos sin : α → α) (rand : Int → Int → Nat → Int) (n : Nat) (b : Birds α) :
    Birds α :=
  initLoop sqrt cos sin rand n 0 b

/-- The random source that always returns the lower end of the range. -/
def randLow : Int → Int → Nat → Int := fun lo _ _ => lo

/-- Bird 0 at `(300, 500)`, bird 1 at `(500, 500)`, exactly 200 away from it, bird 2
at `(515, 500)`, exactly 15 away from bird 1, every other bird far away at
`(1000, 500)`; all headings `(1, 0)`. -/
def flockRim : Birds α :=
  { pos := fun j =>
      if j = 0 then ⟨300, 500⟩ else if j = 1 then ⟨500, 500⟩
      else if j = 2 then ⟨515, 500⟩ else ⟨1000, 500⟩
    dir := fun _ => ⟨1, 0⟩
    triangle := fun _ => ⟨⟨0, 0⟩, ⟨0, 0⟩, ⟨0, 0⟩⟩ }

/-- Bird 0 at the interior position `(128, 128)` with heading `(2, 3)`, every other
bird far away at `(1000, 500)` with heading `(1, 0)`. -/
def flockFast : Birds α :=
  { pos := fun j => if j = 0 then ⟨128, 128⟩ else ⟨1000, 500⟩
    dir := fun j => if j = 0 then ⟨2, 3⟩ else ⟨1, 0⟩
    triangle := fun _ => ⟨⟨0, 0⟩, ⟨0, 0⟩, ⟨0, 0⟩⟩ }

/-- The random source that returns the angle 1 for the range `0..359` and, for
every other range, its lower end. -/
def randAngleOne : Int → Int → Nat → Int :=
  fun lo hi _ => if lo = 0 ∧ 1 ≤ hi then 1 else lo

end Model

/-! ## IEEE 754 binary32 arithmetic

The arithmetic of C `float` on the usual platforms: every operation returns the
exact result rounded to the nearest value with a 24-bit significand, ties to even,
with subnormals, signed zeros, infinities and NaN. -/

/-- A binary32 value: `fin neg m e` is `(-1)^neg * m * 2^e`, with `2^23 ≤ m < 2^24`
and `-149 ≤ e ≤ 104` (normal), or `m < 2^23` and `e = -149` (subnormal), or `m = 0`
and `e = 0` (zero); `inf neg` is an infinity and `nan` a NaN. -/
inductive F32 where
  | fin (neg : Bool) (m : Nat) (e : Int)
  | inf (neg : Bool)
  | nan
  deriving DecidableEq

namespace F32

/-- The number of binary digits of `n`, by halving at most `fuel` times. -/
def bitsAux : Nat → Nat → Nat
  | 0, _ => 0
  | fuel + 1, n => if n = 0 then 0 else bitsAux fuel (n / 2) + 1

/-- The position of the leading binary digit of `n > 0`: `2^(log2 n) ≤ n < 2^(log2 n + 1)`. -/
def log2 (n : Nat) : Nat := bitsAux n n - 1

/-- The integer square root, bit by bit from bit `b - 1` down. -/
def isqrtAux (n : Nat) : Nat → Nat → Nat
  | 0, r => r
  | b + 1, r =>
    if (r + 2 ^ b) * (r + 2 ^ b) ≤ n then isqrtAux n b (r + 2 ^ b) else isqrtAux n b r

/-- The integer square root of `n`. -/
def isqrt (n : Nat) : Nat := isqrtAux n (log2 n / 2 + 1) 0

/-- The binary32 value nearest to `(-1)^neg * (num / den) * 2^e`, ties to even,
for `den > 0`. -/
def round (neg : Bool) (num den : Nat) (e : Int) : F32 :=
  if num = 0 then fin neg 0 0
  else
    let k0 : Int := 23 - ((log2 num : Int) - (log2 den : Int))
    let q0 : Nat := (num * 2 ^ k0.toNat) / (den * 2 ^ (-k0).toNat)
    let k1 : Int := if q0 < 2 ^ 23 then k0 + 1 else k0
    let k : Int := if e - k1 < -149 then e + 149 else k1
    let n1 : Nat := num * 2 ^ k.toNat
    let d1 : Nat := den * 2 ^ (-k).toNat
    let q : Nat := n1 / d1
    let r : Nat := n1 % d1
    let m : Nat := if d1 < 2 * r ∨ (2 * r = d1 ∧ q % 2 = 1) then q + 1 else q
    let t : Int := e - k
    if m = 0 then fin neg 0 0
    else if m = 2 ^ 24 then (if 104 < t + 1 then inf neg else fin neg (2 ^ 23) (t + 1))
    else if 104 < t then inf neg
    else fin neg m t

/-- The integer `±m * 2^(e - e0)` of a finite value on the common exponent `e0 ≤ e`. -/
def aligned (neg : Bool) (m : Nat) (e e0 : Int) : Int :=
  if neg then -((m * 2 ^ (e - e0).toNat : Nat) : Int) else ((m * 2 ^ (e - e0).toNat : Nat) : Int)

/-- Negation. -/
def neg : F32 → F32
  | fin s m e => fin (!s) m e
  | inf s => inf (!s)
  | nan => nan

/-- Rounded addition. -/
def add : F32 → F32 → F32
  | fin s1 m1 e1, fin s2 m2 e2 =>
    let c : Int := aligned s1 m1 e1 (min e1 e2) + aligned s2 m2 e2 (min e1 e2)
    if c = 0 then fin (s1 && s2) 0 0
    else round (decide (c < 0)) c.natAbs 1 (min e1 e2)
  | inf s1, inf s2 => if s1 = s2 then inf s1 else nan
  | inf s1, fin _ _ _ => inf s1
  | fin _ _ _, inf s2 => inf s2
  | _, _ => nan

/-- Rounded multiplication. -/
def mul : F32 → F32 → F32
  | fin s1 m1 e1, fin s2 m2 e2 => round (xor s1 s2) (m1 * m2) 1 (e1 + e2)
  | inf s1, inf s2 => inf (xor s1 s2)
  | inf s1, fin s2 m2 _ => if m2 = 0 then nan else inf (xor s1 s2)
  | fin s1 m1 _, inf s2 => if m1 = 0 then nan else inf (xor s1 s2)
  | _, _ => nan

/-- Rounded division. -/
def div : F32 → F32 → F32
  | fin s1 m1 e1, fin s2 m2 e2 =>
    if m2 = 0 then (if m1 = 0 then nan else inf (xor s1 s2))
    else round (xor s1 s2) m1 m2 (e1 - e2)
  | inf s1, fin s2 _ _ => inf (xor s1 s2)
  | fin s1 _ _, inf s2 => fin (xor s1 s2) 0 0
  | _, _ => nan

/-- Correctly rounded square root (`sqrtf`). -/
def sqrt : F32 → F32
  | fin s m e =>
    if m = 0 then fin s 0 0
    else if s then nan
    else
      let m1 : Nat := if e % 2 = 0 then m else 2 * m
      let e1 : Int := if e % 2 = 0 then e else e - 1
      let r : Nat := isqrt (m1 * 4 ^ 26)
      if r * r = m1 * 4 ^ 26 then round false r 1 (e1 / 2 - 26)
      else round false (2 * r + 1) 2 (e1 / 2 - 26)
  | inf s => if s then nan else inf false
  | nan => nan

/-- The comparison `<` of C on `float`: false as soon as an operand is a NaN. -/
def lt : F32 → F32 → Bool
  | fin s1 m1 e1, fin s2 m2 e2 =>
    decide (aligned s1 m1 e1 (min e1 e2) < aligned s2 m2 e2 (min e1 e2))
  | inf s1, inf s2 => s1 && !s2
  | inf s1, fin _ _ _ => s1
  | fin _ _ _, inf s2 => !s2
  | _, _ => false

/-- The comparison `<=` of C on `float`. -/
def le : F32 → F32 → Bool
  | fin s1 m1 e1, fin s2 m2 e2 =>
    decide (aligned s1 m1 e1 (min e1 e2) ≤ aligned s2 m2 e2 (min e1 e2))
  | inf s1, inf s2 => s1 || !s2
  | inf s1, fin _ _ _ => s1
  | fin _ _ _, inf s2 => !s2
  | _, _ => false

/-- The conversion of a C `int` to `float`. -/
def ofInt (i : Int) : F32 := round (decide (i < 0)) i.natAbs 1 0

/-- The rational value of a finite binary32 value (0 for infinities and NaN). -/
def toRat : F32 → ℚ
  | fin s m e => (if s then -1 else 1) * (m : ℚ) * (2 : ℚ) ^ e
  | _ => 0

instance : Zero F32 := ⟨fin false 0 0⟩
instance : One F32 := ⟨fin false (2 ^ 23) (-23)⟩
instance : NatCast F32 := ⟨fun n => ofInt (n : Int)⟩
instance : IntCast F32 := ⟨ofInt⟩
instance : Add F32 := ⟨add⟩
instance : Sub F32 := ⟨fun a b => add a (neg b)⟩
instance : Mul F32 := ⟨mul⟩
instance : Div F32 := ⟨div⟩
instance : Neg F32 := ⟨neg⟩
instance : LT F32 := ⟨fun a b => lt a b = true⟩
instance : LE F32 := ⟨fun a b => le a b = true⟩
instance : DecidableRel (α := F32) (· < ·) := fun a b => decEq (lt a b) true
instance : DecidableRel (α := F32) (· ≤ ·) := fun a b => decEq (le a b) true

end F32

/-- The value that `cosf` of the C library returns at the angle 1 (radian),
`9064768 / 2^24 = 0.54030228`, the binary32 value nearest to `cos 1`; the other
angles are not tabulated. -/
def cosfAtOne (a : F32) : F32 := if a = 1 then F32.fin false 9064768 (-24) else F32.nan

/-- The value that `sinf` of the C library returns at the angle 1 (radian),
`14117540 / 2^24 = 0.84147096`, the binary32 value nearest to `sin 1`; the other
angles are not tabulated. -/
def sinfAtOne (a : F32) : F32 := if a = 1 then F32.fin false 14117540 (-24) else F32.nan

/-! ## Structure of the loops -/

section Structure

set_option linter.unusedSectionVars false

variable {α : Type} [Zero α] [One α] [NatCast α] [IntCast α] [Add α] [Sub α] [Mul α] [Div α]
  [Neg α] [LT α] [LE α] [DecidableRel (α := α) (· < ·)] [DecidableRel (α := α) (· ≤ ·)]

/-- The inner loop visits the indices from `j` up to, and without, the first of
`j + left` and `i`. -/
theorem scanLoop_eq_foldl (b : Birds α) (i : Nat) :
    ∀ (left j : Nat) (a : Aggregates α), j ≤ i →
      scanLoop b i left j a =
        (List.range' j (min left (i - j))).foldl (fun acc k => scanPair b i k acc) a := by
  intro left
  induction left with
  | zero => intro j a _; simp [scanLoop]
  | succ left ih =>
    intro j a hj
    by_cases h : i = j
    · subst h; simp [scanLoop]
    · have hlt : j < i := lt_of_le_of_ne hj (Ne.symm h)
      have hmin : min (left + 1) (i - j) = min left (i - (j + 1)) + 1 := by omega
      rw [scanLoop, if_pos h, ih (j + 1) _ hlt, hmin, List.range'_succ, List.foldl_cons]

/-- The scan of bird `i` is the fold of the pair body over the indices below both
`n` and `i`, in increasing order. -/
theorem scan_eq_foldl (n : Nat) (b : Birds α) (i : Nat) :
    scan n b i =
      (List.range (min n i)).foldl (fun acc k => scanPair b i k acc) Aggregates.zero := by
  rw [scan, scanLoop_eq_foldl b i n 0 _ (Nat.zero_le i), List.range_eq_range']
  simp

/-- The pair body reads only `pos[i]`, `pos[j]` and `dir[j]`. -/
theorem scanPair_congr (b c : Birds α) (i j : Nat) (a : Aggregates α)
    (hi : b.pos i = c.pos i) (hp : b.pos j = c.pos j) (hd : b.dir j = c.dir j) :
    scanPair b i j a = scanPair c i j a := by
  simp only [scanPair, hi, hp, hd]

/-- A fold of the pair body over `l` reads only `pos[i]` and the cells of `l`. -/
theorem foldl_scanPair_congr (b c : Birds α) (i : Nat) (l : List Nat)
    (hi : b.pos i = c.pos i) (hp : ∀ j ∈ l, b.pos j = c.pos j)
    (hd : ∀ j ∈ l, b.dir j = c.dir j) (a : Aggregates α) :
    l.foldl (fun acc k => scanPair b i k acc) a
      = l.foldl (fun acc k => scanPair c i k acc) a := by
  induction l generalizing a with
  | nil => rfl
  | cons j l ih =>
    simp only [List.foldl_cons]
    rw [scanPair_congr b c i j a hi (hp j (List.mem_cons_self j l))
      (hd j (List.mem_cons_self j l))]
    exact ih (fun k hk => hp k (List.mem_cons_of_mem j hk))
      (fun k hk => hd k (List.mem_cons_of_mem j hk)) _

/-- The scan of bird `i` reads the positions and, of the headings, only those of
the birds below `i`. -/
theorem scan_congr (n : Nat) (b c : Birds α) (i : Nat)
    (hp : ∀ j, j ≤ i → b.pos j = c.pos j) (hd : ∀ j, j < i → b.dir j = c.dir j) :
    scan n b i = scan n c i := by
  rw [scan_eq_foldl, scan_eq_foldl]
  apply foldl_scanPair_congr b c i _ (hp i le_rfl)
  · intro j hj
    have := List.mem_range.mp hj
    exact hp j (by omega)
  · intro j hj
    have := List.mem_range.mp hj
    exact hd j (by omega)

theorem steerBird_pos (sqrt : α → α) (n : Nat) (b : Birds α) (i : Nat) :
    (steerBird sqrt n b i).pos = b.pos := rfl

theorem steerBird_triangle (sqrt : α → α) (n : Nat) (b : Birds α) (i : Nat) :
    (steerBird sqrt n b i).triangle = b.triangle := rfl

theorem steerBird_dir_same (sqrt : α → α) (n : Nat) (b : Birds α) (i : Nat) :
    (steerBird sqrt n b i).dir i = Vector2ClampValue sqrt (headingBeforeClamp n b i) 1 3 := by
  simp [steerBird]

theorem steerBird_dir_other (sqrt : α → α) (n : Nat) (b : Birds α) (i k : Nat) (h : k ≠ i) :
    (steerBird sqrt n b i).dir k = b.dir k := by
  simp [steerBird, Function.update_noteq h]

/-- The main loop never writes a position. -/
theorem steerLoop_pos (sqrt : α → α) (n : Nat) :
    ∀ (left i : Nat) (b : Birds α), (steerLoop sqrt n left i b).pos = b.pos := by
  intro left
  induction left with
  | zero => intro i b; rfl
  | succ left ih => intro i b; rw [steerLoop, ih, steerBird_pos]

/-- The main loop never writes a triangle. -/
theorem steerLoop_triangle (sqrt : α → α) (n : Nat) :
    ∀ (left i : Nat) (b : Birds α), (steerLoop sqrt n left i b).triangle = b.triangle := by
  intro left
  induction left with
  | zero => intro i b; rfl
  | succ left ih => intro i b; rw [steerLoop, ih, steerBird_triangle]

/-- The iterations `i, ..., i + left - 1` leave the headings outside that range alone. -/
theorem steerLoop_dir_outside (sqrt : α → α) (n : Nat) :
    ∀ (left i : Nat) (b : Birds α) (k : Nat), (k < i ∨ i + left ≤ k) →
      (steerLoop sqrt n left i b).dir k = b.dir k := by
  intro left
  induction left with
  | zero => intro i b k _; rfl
  | succ left ih =>
    intro i b k hk
    rw [steerLoop, ih (i + 1) _ k (by omega), steerBird_dir_other sqrt n b i k (by omega)]

/-- Running `l1 + l2` iterations is running `l1` and then `l2` of them. -/
theorem steerLoop_add (sqrt : α → α) (n : Nat) :
    ∀ (l1 l2 i : Nat) (b : Birds α),
      steerLoop sqrt n (l1 + l2) i b = steerLoop sqrt n l2 (i + l1) (steerLoop sqrt n l1 i b) := by
  intro l1
  induction l1 with
  | zero => intro l2 i b; simp [steerLoop]
  | succ l1 ih =>
    intro l2 i b
    have h : l1 + 1 + l2 = (l1 + l2) + 1 := by omega
    rw [h, steerLoop, steerLoop, ih]
    congr 1
    omega

theorem stateBefore_pos (sqrt : α → α) (n : Nat) (b : Birds α) (i : Nat) :
    (stateBefore sqrt n b i).pos = b.pos := steerLoop_pos sqrt n i 0 b

/-- When iteration `i` starts, the headings from index `i` on are those of the
start of the frame. -/
theorem stateBefore_dir_of_le (sqrt : α → α) (n : Nat) (b : Birds α) (i k : Nat) (h : i ≤ k) :
    (stateBefore sqrt n b i).dir k = b.dir k :=
  steerLoop_dir_outside sqrt n i 0 b k (Or.inr (by omega))

/-- After `m > k` iterations the heading of bird `k` is the clamp written by
iteration `k`. -/
theorem steerLoop_dir_inside (sqrt : α → α) (n : Nat) (b : Birds α) (m k : Nat) (hk : k < m) :
    (steerLoop sqrt n m 0 b).dir k =
      Vector2ClampValue sqrt (headingBeforeClamp n (steerLoop sqrt n k 0 b) k) 1 3 := by
  have h1 : m = k + ((m - k - 1) + 1) := by omega
  rw [h1, steerLoop_add, steerLoop,
    steerLoop_dir_outside sqrt n _ _ _ k (Or.inl (by omega))]
  simp only [Nat.zero_add]
  exact steerBird_dir_same sqrt n _ k

/-- The heading of bird `k < n` after the main loop is the clamp written by
iteration `k`. -/
theorem steerLoop_dir_eq (sqrt : α → α) (n : Nat) (b : Birds α) (k : Nat) (hk : k < n) :
    (steerLoop sqrt n n 0 b).dir k =
      Vector2ClampValue sqrt (headingBeforeClamp n (stateBefore sqrt n b k) k) 1 3 :=
  steerLoop_dir_inside sqrt n b n k hk

/-- After `m ≥ i` iterations the headings below `i` are those that the first `i`
iterations wrote. -/
theorem steerLoop_dir_stable (sqrt : α → α) (n : Nat) (b : Birds α) (m i k : Nat)
    (hi : i ≤ m) (h : k < i) :
    (steerLoop sqrt n i 0 b).dir k = (steerLoop sqrt n m 0 b).dir k := by
  have h1 : m = i + (m - i) := by omega
  have h2 := steerLoop_dir_outside sqrt n (m - i) (0 + i) (steerLoop sqrt n i 0 b) k
    (Or.inl (by omega))
  rw [h1, steerLoop_add, h2]

/-- When iteration `i ≤ n` starts, the headings below `i` are already those that the
main loop ends with. -/
theorem stateBefore_dir_of_lt (sqrt : α → α) (n : Nat) (b : Birds α) (i k : Nat)
    (hi : i ≤ n) (h : k < i) :
    (stateBefore sqrt n b i).dir k = (steerLoop sqrt n n 0 b).dir k :=
  steerLoop_dir_stable sqrt n b n i k hi h

theorem stepPositionLoop_dir (sqrt : α → α) :
    ∀ (left i : Nat) (b : Birds α), (stepPositionLoop sqrt left i b).dir = b.dir := by
  intro left
  induction left with
  | zero => intro i b; rfl
  | succ left ih => intro i b; rw [stepPositionLoop, ih]; rfl

theorem stepPositionLoop_pos_outside (sqrt : α → α) :
    ∀ (left i : Nat) (b : Birds α) (k : Nat), (k < i ∨ i + left ≤ k) →
      (stepPositionLoop sqrt left i b).pos k = b.pos k := by
  intro left
  induction left with
  | zero => intro i b k _; rfl
  | succ left ih =>
    intro i b k hk
    rw [stepPositionLoop, ih (i + 1) _ k (by omega)]
    have : k ≠ i := by omega
    simp [stepPositionBird, Function.update_noteq this]

theorem stepPositionLoop_triangle_outside (sqrt : α → α) :
    ∀ (left i : Nat) (b : Birds α) (k : Nat), (k < i ∨ i + left ≤ k) →
      (stepPositionLoop sqrt left i b).triangle k = b.triangle k := by
  intro left
  induction left with
  | zero => intro i b k _; rfl
  | succ left ih =>
    intro i b k hk
    rw [stepPositionLoop, ih (i + 1) _ k (by omega)]
    have : k ≠ i := by omega
    simp [stepPositionBird, Function.update_noteq this]

/-- Inside the range of the loop of `StepPosition`, the position moves by twice the
heading. -/
theorem stepPositionLoop_pos_inside (sqrt : α → α) :
    ∀ (left i : Nat) (b : Birds α) (k : Nat), i ≤ k → k < i + left →
      (stepPositionLoop sqrt left i b).pos k = Vector2Add (b.pos k) (Vector2Scale (b.dir k) 2) := by
  intro left
  induction left with
  | zero => intro i b k h1 h2; omega
  | succ left ih =>
    intro i b k h1 h2
    rw [stepPositionLoop]
    by_cases h : k = i
    · subst h
      rw [stepPositionLoop_pos_outside sqrt left (k + 1) _ k (Or.inl (by omega))]
      simp [stepPositionBird]
    · rw [ih (i + 1) _ k (by omega) (by omega)]
      simp [stepPositionBird, Function.update_noteq h]

/-- Inside the range of the loop of `StepPosition`, the triangle is recomputed from
the moved position and the heading. -/
theorem stepPositionLoop_triangle_inside (sqrt : α → α) :
    ∀ (left i : Nat) (b : Birds α) (k : Nat), i ≤ k → k < i + left →
      (stepPositionLoop sqrt left i b).triangle k =
        GetTriangle sqrt (Vector2Add (b.pos k) (Vector2Scale (b.dir k) 2)) (b.dir k) := by
  intro left
  induction left with
  | zero => intro i b k h1 h2; omega
  | succ left ih =>
    intro i b k h1 h2
    rw [stepPositionLoop]
    by_cases h : k = i
    · subst h
      rw [stepPositionLoop_triangle_outside sqrt left (k + 1) _ k (Or.inl (by omega))]
      simp [stepPositionBird]
    · rw [ih (i + 1) _ k (by omega) (by omega)]
      simp [stepPositionBird, Function.update_noteq h]

theorem Step_dir (sqrt : α → α) (n : Nat) (b : Birds α) :
    (Step sqrt n b).dir = (steerLoop sqrt n n 0 b).dir :=
  stepPositionLoop_dir sqrt n 0 _

/-- The heading of bird `i < n` after one frame. -/
theorem Step_dir_eq (sqrt : α → α) (n : Nat) (b : Birds α) (i : Nat) (hi : i < n) :
    (Step sqrt n b).dir i =
      Vector2ClampValue sqrt (headingBeforeClamp n (stateBefore sqrt n b i) i) 1 3 := by
  rw [Step_dir, steerLoop_dir_eq sqrt n b i hi]

/-- The position of bird `i < n` after one frame. -/
theorem Step_pos_eq (sqrt : α → α) (n : Nat) (b : Birds α) (i : Nat) (hi : i < n) :
    (Step sqrt n b).pos i = Vector2Add (b.pos i) (Vector2Scale ((Step sqrt n b).dir i) 2) := by
  rw [Step_dir]
  rw [Step, StepPosition, stepPositionLoop_pos_inside sqrt n 0 _ i (Nat.zero_le i) (by omega),
    steerLoop_pos]

/-- The triangle of bird `i < n` after one frame. -/
theorem Step_triangle_eq (sqrt : α → α) (n : Nat) (b : Birds α) (i : Nat) (hi : i < n) :
    (Step sqrt n b).triangle i =
      GetTriangle sqrt ((Step sqrt n b).pos i) ((Step sqrt n b).dir i) := by
  rw [Step_pos_eq sqrt n b i hi, Step_dir]
  rw [Step, StepPosition,
    stepPositionLoop_triangle_inside sqrt n 0 _ i (Nat.zero_le i) (by omega), steerLoop_pos]

/-! ## The first two iterations and the initialisation loop -/

theorem scan_index_zero (n : Nat) (b : Birds α) : scan n b 0 = Aggregates.zero := by
  rw [scan_eq_foldl]; simp

theorem scan_index_one (n : Nat) (b : Birds α) (hn : 1 ≤ n) :
    scan n b 1 = scanPair b 1 0 Aggregates.zero := by
  rw [scan_eq_foldl, Nat.min_eq_right hn]; rfl

/-- The state in which iteration 0 starts is the state of the start of the frame. -/
theorem stateBefore_zero (sqrt : α → α) (n : Nat) (b : Birds α) :
    stateBefore sqrt n b 0 = b := rfl

/-- The heading of bird 0 before the clamp: no bird is scanned. -/
theorem headingBeforeClamp_zero_raw (n : Nat) (b : Birds α) :
    headingBeforeClamp n b 0 = turn (b.pos 0) (steer b 0 Aggregates.zero) := by
  rw [headingBeforeClamp, headingAfterSteer, scan_index_zero]

/-- The heading of bird 1 before the clamp, from the state of the start of the
frame: bird 0 is the only bird scanned, with the heading that iteration 0 gave it. -/
theorem headingBeforeClamp_one_raw (sqrt : α → α) (n : Nat) (b : Birds α) (hn : 1 ≤ n) :
    headingBeforeClamp n (stateBefore sqrt n b 1) 1 =
      turn (b.pos 1)
        (steer b 1
          (scanPair
            { b with
              dir := (Function.update b.dir 0
                (Vector2ClampValue sqrt (turn (b.pos 0) (steer b 0 Aggregates.zero)) 1 3)) } 1 0
            Aggregates.zero)) := by
  have hd0 : (stateBefore sqrt n b 1).dir 0
      = Vector2ClampValue sqrt (turn (b.pos 0) (steer b 0 Aggregates.zero)) 1 3 := by
    rw [stateBefore, steerLoop_dir_inside sqrt n b 1 0 (by omega), steerLoop,
      headingBeforeClamp_zero_raw]
  rw [headingBeforeClamp, headingAfterSteer, scan_index_one _ _ hn, stateBefore_pos]
  have h1 : scanPair (stateBefore sqrt n b 1) 1 0 Aggregates.zero
      = scanPair { b with
          dir := (Function.update b.dir 0
            (Vector2ClampValue sqrt (turn (b.pos 0) (steer b 0 Aggregates.zero)) 1 3)) }
          1 0 Aggregates.zero := by
    apply scanPair_congr
    · rw [stateBefore_pos]
    · rw [stateBefore_pos]
    · rw [hd0]; simp
  rw [h1]
  simp only [steer, stateBefore_pos, stateBefore_dir_of_le sqrt n b 1 1 le_rfl]

theorem initLoop_outside (sqrt cos sin : α → α) (rand : Int → Int → Nat → Int) :
    ∀ (left i : Nat) (b : Birds α) (k : Nat), (k < i ∨ i + left ≤ k) →
      (initLoop sqrt cos sin rand left i b).pos k = b.pos k
        ∧ (initLoop sqrt cos sin rand left i b).dir k = b.dir k
        ∧ (initLoop sqrt cos sin rand left i b).triangle k = b.triangle k := by
  intro left
  induction left with
  | zero => intro i b k _; exact ⟨rfl, rfl, rfl⟩
  | succ left ih =>
    intro i b k hk
    have hne : k ≠ i := by omega
    obtain ⟨h1, h2, h3⟩ := ih (i + 1) (initBird sqrt cos sin rand b i) k (by omega)
    rw [initLoop, h1, h2, h3]
    simp [initBird, Function.update_noteq hne]

/-- Inside the range of the initialisation loop, bird `k` gets its position from the
first two draws, its heading from `Vector2Rotate` of `(1, 0)` by the third, and its
triangle from `GetTriangle` of the two. -/
theorem initLoop_inside (sqrt cos sin : α → α) (rand : Int → Int → Nat → Int) :
    ∀ (left i : Nat) (b : Birds α) (k : Nat), i ≤ k → k < i + left →
      (initLoop sqrt cos sin rand left i b).pos k =
          ⟨((rand 50 (screenWidth - 50) (3 * k) : Int) : α),
            ((rand 50 (screenHeight - 50) (3 * k + 1) : Int) : α)⟩
        ∧ (initLoop sqrt cos sin rand left i b).dir k =
          Vector2Rotate cos sin ⟨1, 0⟩ ((rand 0 359 (3 * k + 2) : Int) : α)
        ∧ (initLoop sqrt cos sin rand left i b).triangle k =
          GetTriangle sqrt ((initLoop sqrt cos sin rand left i b).pos k)
            ((initLoop sqrt cos sin rand left i b).dir k) := by
  intro left
  induction left with
  | zero => intro i b k h1 h2; omega
  | succ left ih =>
    intro i b k h1 h2
    by_cases h : k = i
    · subst h
      obtain ⟨e1, e2, e3⟩ :=
        initLoop_outside sqrt cos sin rand left (k + 1) (initBird sqrt cos sin rand b k) k
          (Or.inl (by omega))
      rw [initLoop, e1, e2, e3]
      simp [initBird]
    · rw [initLoop]
      exact ih (i + 1) _ k (by omega) (by omega)

/-! ## C7, C9, C18: properties of the loops that hold for any arithmetic -/

/-- C7 (shape consistency).  After one frame (main loop, then `StepPosition`) the
triangle of every bird `i < n` is `GetTriangle` of the position and heading that the
same bird has after that frame. -/
theorem C7_shape_consistency (sqrt : α → α) (n : Nat) (b : Birds α) (i : Nat) (hi : i < n) :
    (Step sqrt n b).triangle i =
      GetTriangle sqrt ((Step sqrt n b).pos i) ((Step sqrt n b).dir i) :=
  Step_triangle_eq sqrt n b i hi

/-- Witness of C7: bird 1 of the 200 birds of `flockEdge`. -/
theorem C7_shape_consistency_witness :
    1 < NUM_BIRDS ∧
      (Step Rat.sqrt NUM_BIRDS (flockEdge : Birds ℚ)).triangle 1 =
        GetTriangle Rat.sqrt ((Step Rat.sqrt NUM_BIRDS (flockEdge : Birds ℚ)).pos 1)
          ((Step Rat.sqrt NUM_BIRDS (flockEdge : Birds ℚ)).dir 1) :=
  ⟨by decide, C7_shape_consistency Rat.sqrt NUM_BIRDS flockEdge 1 (by decide)⟩

/-- C9 (integration).  After one frame the position of every bird `i < n` is its
position of the start of the frame plus `step_amount = 2` times its heading after
the frame, which is the clamp to `[1, 3]` of its heading after steering and boundary
correction. -/
theorem C9_integration (sqrt : α → α) (n : Nat) (b : Birds α) (i : Nat) (hi : i < n) :
    (Step sqrt n b).pos i = Vector2Add (b.pos i) (Vector2Scale ((Step sqrt n b).dir i) 2)
      ∧ (Step sqrt n b).pos i =
          ⟨(b.pos i).x + ((Step sqrt n b).dir i).x * 2, (b.pos i).y + ((Step sqrt n b).dir i).y * 2⟩
      ∧ (Step sqrt n b).dir i =
          Vector2ClampValue sqrt (headingBeforeClamp n (stateBefore sqrt n b i) i) 1 3 :=
  ⟨Step_pos_eq sqrt n b i hi, by rw [Step_pos_eq sqrt n b i hi]; rfl, Step_dir_eq sqrt n b i hi⟩

/-- Witness of C9: bird 1 of the 200 birds of `flockEdge`. -/
theorem C9_integration_witness :
    1 < NUM_BIRDS ∧
      (Step Rat.sqrt NUM_BIRDS (flockEdge : Birds ℚ)).pos 1 =
        Vector2Add ((flockEdge : Birds ℚ).pos 1)
          (Vector2Scale ((Step Rat.sqrt NUM_BIRDS (flockEdge : Birds ℚ)).dir 1) 2) :=
  ⟨by decide, (C9_integration Rat.sqrt NUM_BIRDS flockEdge 1 (by decide)).1⟩

/-- One more iteration after `m` of them is iteration `m`. -/
theorem steerLoop_succ (sqrt : α → α) (n : Nat) (b : Birds α) (m : Nat) :
    steerLoop sqrt n (m + 1) 0 b = steerBird sqrt n (steerLoop sqrt n m 0 b) m := by
  rw [steerLoop_add sqrt n m 1 0 b]
  simp [steerLoop]

/-- The heading before the clamp of bird `i` reads positions and headings of the
birds up to `i` only. -/
theorem headingBeforeClamp_congr (n : Nat) (b c : Birds α) (i : Nat)
    (hp : ∀ j, j ≤ i → b.pos j = c.pos j) (hd : ∀ j, j ≤ i → b.dir j = c.dir j) :
    headingBeforeClamp n b i = headingBeforeClamp n c i := by
  rw [headingBeforeClamp, headingBeforeClamp, headingAfterSteer, headingAfterSteer,
    scan_congr n b c i hp (fun j hj => hd j (by omega)), steer, steer, hp i le_rfl,
    hd i le_rfl]

/-- Two flocks that agree up to index `i` agree on the headings up to `i` after any
number of iterations of the main loop. -/
theorem steerLoop_dir_congr (sqrt : α → α) (n : Nat) (b c : Birds α) (i : Nat)
    (hp : ∀ j, j ≤ i → b.pos j = c.pos j) (hd : ∀ j, j ≤ i → b.dir j = c.dir j) :
    ∀ (m k : Nat), k ≤ i →
      (steerLoop sqrt n m 0 b).dir k = (steerLoop sqrt n m 0 c).dir k := by
  intro m
  induction m with
  | zero => intro k hk; exact hd k hk
  | succ m ih =>
    intro k hk
    rw [steerLoop_succ, steerLoop_succ]
    by_cases h : k = m
    · subst h
      rw [steerBird_dir_same, steerBird_dir_same]
      congr 1
      apply headingBeforeClamp_congr
      · intro j hj
        rw [steerLoop_pos, steerLoop_pos]
        exact hp j (by omega)
      · intro j hj
        exact ih j (by omega)
    · rw [steerBird_dir_other _ _ _ _ _ h, steerBird_dir_other _ _ _ _ _ h]
      exact ih k hk

/-- C18 (dependence on the lower indices only).  If two flocks agree on the positions
and headings of the birds of index at most `i`, then after one frame bird `i < n` has
the same heading, position and triangle in both: birds of higher index never
influence bird `i`. -/
theorem C18_lower_indices_only (sqrt : α → α) (n : Nat) (b c : Birds α) (i : Nat) (hi : i < n)
    (hp : ∀ j, j ≤ i → b.pos j = c.pos j) (hd : ∀ j, j ≤ i → b.dir j = c.dir j) :
    (Step sqrt n b).dir i = (Step sqrt n c).dir i
      ∧ (Step sqrt n b).pos i = (Step sqrt n c).pos i
      ∧ (Step sqrt n b).triangle i = (Step sqrt n c).triangle i := by
  have h1 : (Step sqrt n b).dir i = (Step sqrt n c).dir i := by
    rw [Step_dir, Step_dir]
    exact steerLoop_dir_congr sqrt n b c i hp hd n i le_rfl
  have h2 : (Step sqrt n b).pos i = (Step sqrt n c).pos i := by
    rw [Step_pos_eq _ _ _ i hi, Step_pos_eq _ _ _ i hi, h1, hp i le_rfl]
  refine ⟨h1, h2, ?_⟩
  rw [Step_triangle_eq _ _ _ i hi, Step_triangle_eq _ _ _ i hi, h1, h2]

/-- Witness of C18: `flockTwin` and `flockCancel` agree on bird 0 and differ on bird
1; bird 0 ends the frame in the same state in both. -/
theorem C18_lower_indices_only_witness :
    0 < NUM_BIRDS
      ∧ (flockTwin : Birds ℚ).pos 1 ≠ (flockCancel : Birds ℚ).pos 1
      ∧ (Step Rat.sqrt NUM_BIRDS (flockTwin : Birds ℚ)).dir 0
          = (Step Rat.sqrt NUM_BIRDS (flockCancel : Birds ℚ)).dir 0
      ∧ (Step Rat.sqrt NUM_BIRDS (flockTwin : Birds ℚ)).pos 0
          = (Step Rat.sqrt NUM_BIRDS (flockCancel : Birds ℚ)).pos 0
      ∧ (Step Rat.sqrt NUM_BIRDS (flockTwin : Birds ℚ)).triangle 0
          = (Step Rat.sqrt NUM_BIRDS (flockCancel : Birds ℚ)).triangle 0 :=
  ⟨by decide, by simp [flockTwin, flockCancel],
    C18_lower_indices_only Rat.sqrt NUM_BIRDS flockTwin flockCancel 0 (by decide)
      (fun j hj => by
        have h0 : j = 0 := by omega
        subst h0
        rfl)
      (fun j hj => by
        have h0 : j = 0 := by omega
        subst h0
        rfl)⟩

end Structure

section Loops

variable {α : Type} [LinearOrderedField α]

/-! ## Arithmetic of the helpers -/

theorem VICINITY_DIST_eq : VICINITY_DIST = 200 := by decide
theorem TOO_CLOSE_DIST_eq : TOO_CLOSE_DIST = 15 := by decide

/-- A bird within `TOO_CLOSE_DIST` is within `VICINITY_DIST`. -/
theorem vicinity_of_too_close (p c : Vector2 α)
    (h : CheckCollisionPointCircle p c (TOO_CLOSE_DIST : α) = true) :
    CheckCollisionPointCircle p c (VICINITY_DIST : α) = true := by
  simp only [CheckCollisionPointCircle, decide_eq_true_eq, TOO_CLOSE_DIST_eq,
    VICINITY_DIST_eq] at h ⊢
  push_cast at h ⊢
  linarith

/-- A pair outside the vicinity radius leaves the aggregates alone. -/
theorem scanPair_of_not_vicinity (b : Birds α) (i j : Nat) (a : Aggregates α)
    (h : CheckCollisionPointCircle (b.pos j) (b.pos i) (VICINITY_DIST : α) = false) :
    scanPair b i j a = a := by
  have h2 : CheckCollisionPointCircle (b.pos j) (b.pos i) (TOO_CLOSE_DIST : α) = false := by
    cases hc : CheckCollisionPointCircle (b.pos j) (b.pos i) (TOO_CLOSE_DIST : α) with
    | false => rfl
    | true => rw [vicinity_of_too_close _ _ hc] at h; exact absurd h (by simp)
  simp [scanPair, h, h2]

theorem foldl_scanPair_of_not_vicinity (b : Birds α) (i : Nat) (l : List Nat)
    (h : ∀ j ∈ l, CheckCollisionPointCircle (b.pos j) (b.pos i) (VICINITY_DIST : α) = false)
    (a : Aggregates α) :
    l.foldl (fun acc k => scanPair b i k acc) a = a := by
  induction l generalizing a with
  | nil => rfl
  | cons j l ih =>
    rw [List.foldl_cons, scanPair_of_not_vicinity b i j a (h j (List.mem_cons_self j l))]
    exact ih (fun k hk => h k (List.mem_cons_of_mem j hk)) a

/-- A bird with no other bird of lower index in its vicinity has zero aggregates. -/
theorem scan_of_isolated (n : Nat) (b : Birds α) (i : Nat)
    (h : ∀ j, j < n → j < i →
      CheckCollisionPointCircle (b.pos j) (b.pos i) (VICINITY_DIST : α) = false) :
    scan n b i = Aggregates.zero := by
  rw [scan_eq_foldl]
  apply foldl_scanPair_of_not_vicinity
  intro j hj
  have := List.mem_range.mp hj
  exact h j (by omega) (by omega)

theorem steer_zero (b : Birds α) (i : Nat) : steer b i Aggregates.zero = b.dir i := by
  simp [steer, mass_centre_dir, dir_mean_scaled, repulsion_scaled, Aggregates.zero, Vector2Add]


theorem foldl_scanPair_eq (b : Birds α) (i : Nat) (l : List Nat) (a : Aggregates α) :
    l.foldl (fun acc k => scanPair b i k acc) a =
      { num_vicinity := a.num_vicinity + (within b i VICINITY_DIST l).length
        num_too_close := a.num_too_close + (within b i TOO_CLOSE_DIST l).length
        mass_centre := ((within b i VICINITY_DIST l).map b.pos).foldl Vector2Add a.mass_centre
        repulsion := ((within b i TOO_CLOSE_DIST l).map
          (fun j => Vector2Subtract (b.pos i) (b.pos j))).foldl Vector2Add a.repulsion
        dir_mean := ((within b i VICINITY_DIST l).map b.dir).foldl Vector2Add a.dir_mean } := by
  induction l generalizing a with
  | nil => simp [within]
  | cons j l ih =>
    rw [List.foldl_cons, ih]
    cases hv : CheckCollisionPointCircle (b.pos j) (b.pos i) (VICINITY_DIST : α) <;>
    cases hc : CheckCollisionPointCircle (b.pos j) (b.pos i) (TOO_CLOSE_DIST : α) <;>
    simp [scanPair, within, List.filter_cons, hv, hc] <;> omega

/-- What the scan of bird `i` accumulates: counts and sums over the birds of index
below both `n` and `i` that pass the two radius tests. -/
theorem scan_eq (n : Nat) (b : Birds α) (i : Nat) :
    scan n b i =
      { num_vicinity := (within b i VICINITY_DIST (List.range (min n i))).length
        num_too_close := (within b i TOO_CLOSE_DIST (List.range (min n i))).length
        mass_centre := Vector2Sum ((within b i VICINITY_DIST (List.range (min n i))).map b.pos)
        repulsion := Vector2Sum ((within b i TOO_CLOSE_DIST (List.range (min n i))).map
          (fun j => Vector2Subtract (b.pos i) (b.pos j)))
        dir_mean := Vector2Sum ((within b i VICINITY_DIST (List.range (min n i))).map b.dir) } := by
  rw [scan_eq_foldl, foldl_scanPair_eq]
  simp [Aggregates.zero, Vector2Sum]

theorem CheckCollisionPointCircle_self (p : Vector2 α) (r : α) :
    CheckCollisionPointCircle p p r = true := by
  simp [CheckCollisionPointCircle, mul_self_nonneg]


theorem sq_length_eq_zero_iff (v : Vector2 α) :
    v.x * v.x + v.y * v.y = 0 ↔ v = ⟨0, 0⟩ := by
  constructor
  · intro h
    have h1 := mul_self_add_mul_self_eq_zero.mp h
    cases v
    simp_all
  · intro h
    rw [h]
    simp

theorem sq_length_pos_iff (v : Vector2 α) :
    0 < v.x * v.x + v.y * v.y ↔ v ≠ ⟨0, 0⟩ := by
  rw [Ne, ← sq_length_eq_zero_iff]
  have h : 0 ≤ v.x * v.x + v.y * v.y := add_nonneg (mul_self_nonneg _) (mul_self_nonneg _)
  constructor
  · intro h1 h2; rw [h2] at h1; exact lt_irrefl _ h1
  · intro h1; exact lt_of_le_of_ne h (Ne.symm h1)

/-- The clamp returns the zero vector unchanged. -/
theorem Vector2ClampValue_zero (sqrt : α → α) (lo hi : α) :
    Vector2ClampValue sqrt ⟨0, 0⟩ lo hi = ⟨0, 0⟩ := by
  simp [Vector2ClampValue]

/-- The clamp to `[1, 3]` leaves a vector of real length in `[1, 3]` unchanged. -/
theorem Vector2ClampValue_of_mem (v : Vector2 ℝ) (h1 : 1 ≤ v.x * v.x + v.y * v.y)
    (h2 : v.x * v.x + v.y * v.y ≤ 9) : Vector2ClampValue Real.sqrt v 1 3 = v := by
  have hpos : 0 < v.x * v.x + v.y * v.y := by linarith
  have hlo : ¬ Real.sqrt (v.x * v.x + v.y * v.y) < 1 := by
    rw [not_lt, Real.one_le_sqrt]; exact h1
  have hhi : ¬ Real.sqrt (v.x * v.x + v.y * v.y) > 3 := by
    rw [gt_iff_lt, not_lt, Real.sqrt_le_iff]
    constructor <;> norm_num
    exact h2
  simp [Vector2ClampValue, hpos, hlo, hhi]

/-- The clamp to `[1, 3]` of a real vector that is not zero has length in `[1, 3]`. -/
theorem Vector2ClampValue_length (v : Vector2 ℝ) (hv : v ≠ ⟨0, 0⟩) :
    1 ≤ Vector2Length Real.sqrt (Vector2ClampValue Real.sqrt v 1 3) ∧
      Vector2Length Real.sqrt (Vector2ClampValue Real.sqrt v 1 3) ≤ 3 := by
  have hpos : 0 < v.x * v.x + v.y * v.y := (sq_length_pos_iff v).mpr hv
  have hL : 0 < Real.sqrt (v.x * v.x + v.y * v.y) := Real.sqrt_pos.mpr hpos
  have hLL : Real.sqrt (v.x * v.x + v.y * v.y) * Real.sqrt (v.x * v.x + v.y * v.y)
      = v.x * v.x + v.y * v.y := Real.mul_self_sqrt (le_of_lt hpos)
  generalize hLdef : Real.sqrt (v.x * v.x + v.y * v.y) = L at hL hLL
  by_cases hlo : L < 1
  · have hval : Vector2ClampValue Real.sqrt v 1 3 = ⟨v.x * (1 / L), v.y * (1 / L)⟩ := by
      simp [Vector2ClampValue, hpos, hLdef, hlo]
    have hone : v.x * (1 / L) * (v.x * (1 / L)) + v.y * (1 / L) * (v.y * (1 / L)) = 1 := by
      field_simp
      linarith
    rw [hval, Vector2Length]
    simp only [hone, Real.sqrt_one]
    norm_num
  · by_cases hhi : L > 3
    · have hval : Vector2ClampValue Real.sqrt v 1 3 = ⟨v.x * (3 / L), v.y * (3 / L)⟩ := by
        simp [Vector2ClampValue, hpos, hLdef, hlo, hhi]
      have hnine : v.x * (3 / L) * (v.x * (3 / L)) + v.y * (3 / L) * (v.y * (3 / L))
          = 3 * 3 := by
        field_simp
        linarith
      rw [hval, Vector2Length]
      simp only [hnine, Real.sqrt_mul_self (by norm_num : (0:ℝ) ≤ 3)]
      norm_num
    · have hval : Vector2ClampValue Real.sqrt v 1 3 = v := by
        simp [Vector2ClampValue, hpos, hLdef, hlo, hhi]
      rw [hval, Vector2Length, hLdef]
      exact ⟨not_lt.mp hlo, not_lt.mp hhi⟩

theorem SCREEN_MARGIN_eq : SCREEN_MARGIN = 100 := rfl
theorem screenWidth_eq : screenWidth = 1440 := rfl
theorem screenHeight_eq : screenHeight = 1080 := rfl

/-- The four boundary tests add to each component of the heading the sum of the
corrections whose test holds. -/
theorem turn_eq (pos dir : Vector2 α) :
    turn pos dir =
      ⟨dir.x + (if pos.x < (SCREEN_MARGIN : α) then TURN_SPEED else 0)
          - (if pos.x > (screenWidth : α) - (SCREEN_MARGIN : α) then TURN_SPEED else 0),
        dir.y + (if pos.y < (SCREEN_MARGIN : α) then TURN_SPEED else 0)
          - (if pos.y > (screenHeight : α) - (SCREEN_MARGIN : α) then TURN_SPEED else 0)⟩ := by
  simp only [turn, Int.cast_sub]
  split_ifs <;> simp

/-- A bird outside the four boundary zones keeps its heading. -/
theorem turn_interior (pos dir : Vector2 α)
    (hx1 : (SCREEN_MARGIN : α) ≤ pos.x) (hx2 : pos.x ≤ (screenWidth : α) - (SCREEN_MARGIN : α))
    (hy1 : (SCREEN_MARGIN : α) ≤ pos.y) (hy2 : pos.y ≤ (screenHeight : α) - (SCREEN_MARGIN : α)) :
    turn pos dir = dir := by
  rw [turn_eq, if_neg (not_lt.mpr hx1), if_neg (not_lt.mpr hx2), if_neg (not_lt.mpr hy1),
    if_neg (not_lt.mpr hy2)]
  simp

/-- Bird 0 is steered by the boundary tests and the clamp alone. -/
theorem headingBeforeClamp_index_zero (n : Nat) (b : Birds α) :
    headingBeforeClamp n b 0 = turn (b.pos 0) (b.dir 0) := by
  rw [headingBeforeClamp, headingAfterSteer, scan_index_zero, steer_zero]

theorem stateBefore_one_dir_zero (sqrt : α → α) (n : Nat) (b : Birds α) :
    (stateBefore sqrt n b 1).dir 0 = Vector2ClampValue sqrt (turn (b.pos 0) (b.dir 0)) 1 3 := by
  rw [stateBefore, steerLoop_dir_inside sqrt n b 1 0 (by omega), steerLoop,
    headingBeforeClamp_index_zero]

/-- The heading of bird 1 before the clamp, from the state of the start of the
frame: bird 0 is the only bird scanned and its heading is read after its update. -/
theorem headingBeforeClamp_index_one (sqrt : α → α) (n : Nat) (b : Birds α) (hn : 1 ≤ n) :
    headingBeforeClamp n (stateBefore sqrt n b 1) 1 =
      turn (b.pos 1)
        (steer b 1
          (scanPair
            { b with
              dir := (Function.update b.dir 0
                (Vector2ClampValue sqrt (turn (b.pos 0) (b.dir 0)) 1 3)) } 1 0
            Aggregates.zero)) := by
  rw [headingBeforeClamp, headingAfterSteer, scan_index_one _ _ hn, stateBefore_pos]
  have h1 : scanPair (stateBefore sqrt n b 1) 1 0 Aggregates.zero
      = scanPair { b with
          dir := (Function.update b.dir 0
            (Vector2ClampValue sqrt (turn (b.pos 0) (b.dir 0)) 1 3)) } 1 0 Aggregates.zero := by
    apply scanPair_congr
    · rw [stateBefore_pos]
    · rw [stateBefore_pos]
    · rw [stateBefore_one_dir_zero]; simp
  rw [h1]
  simp only [steer, stateBefore_pos, stateBefore_dir_of_le sqrt n b 1 1 le_rfl]

theorem flockTwin_dir_zero :
    (Step Real.sqrt NUM_BIRDS (flockTwin : Birds ℝ)).dir 0 = ⟨1, 0⟩ := by
  rw [Step_dir_eq _ _ _ 0 (by decide)]
  have h : headingBeforeClamp NUM_BIRDS (stateBefore Real.sqrt NUM_BIRDS (flockTwin : Birds ℝ) 0) 0
      = ⟨1, 0⟩ := by
    rw [stateBefore, steerLoop, headingBeforeClamp_index_zero, turn_eq]
    simp only [flockTwin, SCREEN_MARGIN_eq, screenWidth_eq, screenHeight_eq, TURN_SPEED]
    norm_num
  rw [h]
  apply Vector2ClampValue_of_mem <;> norm_num

theorem flockTwin_dir_one :
    (Step Real.sqrt NUM_BIRDS (flockTwin : Birds ℝ)).dir 1 = ⟨21 / 20, 0⟩ := by
  rw [Step_dir_eq _ _ _ 1 (by decide)]
  have h0 : Vector2ClampValue Real.sqrt
      (turn ((flockTwin : Birds ℝ).pos 0) ((flockTwin : Birds ℝ).dir 0)) 1 3 = ⟨1, 0⟩ := by
    have : turn ((flockTwin : Birds ℝ).pos 0) ((flockTwin : Birds ℝ).dir 0) = ⟨1, 0⟩ := by
      rw [turn_eq]
      simp only [flockTwin, SCREEN_MARGIN_eq, screenWidth_eq, screenHeight_eq, TURN_SPEED]
      norm_num
    rw [this]
    apply Vector2ClampValue_of_mem <;> norm_num
  have h : headingBeforeClamp NUM_BIRDS (stateBefore Real.sqrt NUM_BIRDS (flockTwin : Birds ℝ) 1) 1
      = ⟨21 / 20, 0⟩ := by
    rw [headingBeforeClamp_index_one _ _ _ (by decide), h0, turn_eq]
    simp only [flockTwin, scanPair, steer, mass_centre_dir, dir_mean_scaled, repulsion_scaled,
      CheckCollisionPointCircle, Aggregates.zero, Vector2Add, Vector2Subtract, Vector2Scale,
      VICINITY_DIST_eq, TOO_CLOSE_DIST_eq, SCREEN_MARGIN_eq, screenWidth_eq, screenHeight_eq,
      TURN_SPEED, MASS_ATTRACTION_FACTOR, ALIGNMENT_FACTOR, REPULSION_FACTOR]
    norm_num
  rw [h]
  apply Vector2ClampValue_of_mem <;> norm_num

theorem Vector2Length_x_axis (a : ℝ) : Vector2Length Real.sqrt ⟨a, 0⟩ = |a| := by
  simp [Vector2Length, Real.sqrt_mul_self_eq_abs]

theorem StepTwoPass_dir (sqrt : α → α) (agg : Birds α → Nat → Aggregates α) (n : Nat)
    (b : Birds α) (i : Nat) (hi : i < n) :
    (StepTwoPass sqrt agg n b).dir i =
      Vector2ClampValue sqrt (turn (b.pos i) (steer b i (agg b i))) 1 3 := by
  rw [StepTwoPass, StepPosition, stepPositionLoop_dir]
  simp [hi]

theorem specScan_eq (n : Nat) (b : Birds α) (i : Nat) :
    specScan n b i =
      { num_vicinity := (specNeighbours n b i VICINITY_DIST).length
        num_too_close := (specNeighbours n b i TOO_CLOSE_DIST).length
        mass_centre := Vector2Sum ((specNeighbours n b i VICINITY_DIST).map b.pos)
        repulsion := Vector2Sum ((specNeighbours n b i TOO_CLOSE_DIST).map
          (fun j => Vector2Subtract (b.pos i) (b.pos j)))
        dir_mean := Vector2Sum ((specNeighbours n b i VICINITY_DIST).map b.dir) } := by
  rw [specScan, foldl_scanPair_eq]
  simp [Aggregates.zero, Vector2Sum, specNeighbours]

theorem flockPair_vicinity_zero (j : Nat) :
    CheckCollisionPointCircle ((flockPair : Birds α).pos j) ((flockPair : Birds α).pos 0)
      (VICINITY_DIST : α) = decide (j = 0 ∨ j = 1) := by
  by_cases h0 : j = 0
  · subst h0; simp [CheckCollisionPointCircle_self]
  · by_cases h1 : j = 1
    · subst h1
      simp only [flockPair, CheckCollisionPointCircle, VICINITY_DIST_eq]
      norm_num
    · simp only [flockPair, CheckCollisionPointCircle, VICINITY_DIST_eq, if_neg h0, if_neg h1]
      norm_num [h0, h1]

theorem flockPair_specNeighbours :
    specNeighbours NUM_BIRDS (flockPair : Birds α) 0 VICINITY_DIST = [1] := by
  have h : within (flockPair : Birds α) 0 VICINITY_DIST
      ((List.range NUM_BIRDS).filter (fun j => j ≠ 0))
      = ((List.range NUM_BIRDS).filter (fun j => j ≠ 0)).filter
          (fun j => decide (j = 0 ∨ j = 1)) :=
    List.filter_congr (fun j _ => flockPair_vicinity_zero j)
  rw [specNeighbours, h]
  decide

/-! ## C1, C2: aggregation and ordering -/

/-- C1 (aggregation over all other birds) fails on the program.  In the flock
`flockPair` of 200 birds, bird 1 is the one bird other than bird 0 within
`VICINITY_DIST` of bird 0, and the sum of the positions of those birds is `(5, 0)`;
yet the scan of bird 0 leaves `num_vicinity[0] = 0` and `mass_centre[0] = (0, 0)`,
since the inner loop is left at `j = i = 0` before any bird is examined (this holds
for every flock), while the scan of bird 1 does count bird 0. -/
theorem C1_scan_stops_at_own_index :
    specNeighbours NUM_BIRDS (flockPair : Birds ℚ) 0 VICINITY_DIST = [1]
      ∧ Vector2Sum ((specNeighbours NUM_BIRDS (flockPair : Birds ℚ) 0 VICINITY_DIST).map
          (flockPair : Birds ℚ).pos) = ⟨5, 0⟩
      ∧ (scan NUM_BIRDS (flockPair : Birds ℚ) 0).num_vicinity = 0
      ∧ (scan NUM_BIRDS (flockPair : Birds ℚ) 0).mass_centre = ⟨0, 0⟩
      ∧ (∀ (n : Nat) (b : Birds ℚ), scan n b 0 = Aggregates.zero)
      ∧ (scan NUM_BIRDS (stateBefore Rat.sqrt NUM_BIRDS (flockPair : Birds ℚ) 1) 1).num_vicinity
          = 1 := by
  refine ⟨flockPair_specNeighbours, ?_, ?_, ?_, scan_index_zero, ?_⟩
  · rw [flockPair_specNeighbours]
    simp [Vector2Sum, Vector2Add, flockPair]
  · rw [scan_index_zero]; rfl
  · rw [scan_index_zero]; rfl
  · rw [scan_index_one _ _ (by decide)]
    simp only [scanPair, stateBefore_pos, flockPair, CheckCollisionPointCircle,
      VICINITY_DIST_eq, TOO_CLOSE_DIST_eq, Aggregates.zero]
    norm_num

theorem flockLeft_vicinity_one (j : Nat) :
    CheckCollisionPointCircle ((flockLeft : Birds α).pos j) ((flockLeft : Birds α).pos 1)
      (VICINITY_DIST : α) = decide (j = 0 ∨ j = 1) := by
  by_cases h1 : j = 1
  · subst h1; simp [CheckCollisionPointCircle_self]
  · by_cases h0 : j = 0
    · subst h0
      simp only [flockLeft, CheckCollisionPointCircle, VICINITY_DIST_eq]
      norm_num
    · simp only [flockLeft, CheckCollisionPointCircle, VICINITY_DIST_eq, if_neg h0, if_neg h1]
      norm_num [h0, h1]

theorem flockLeft_too_close_one (j : Nat) :
    CheckCollisionPointCircle ((flockLeft : Birds α).pos j) ((flockLeft : Birds α).pos 1)
      (TOO_CLOSE_DIST : α) = decide (j = 1) := by
  by_cases h1 : j = 1
  · subst h1; simp [CheckCollisionPointCircle_self]
  · by_cases h0 : j = 0
    · subst h0
      simp only [flockLeft, CheckCollisionPointCircle, TOO_CLOSE_DIST_eq]
      norm_num
    · simp only [flockLeft, CheckCollisionPointCircle, TOO_CLOSE_DIST_eq, if_neg h0, if_neg h1]
      norm_num [h0, h1]

theorem flockLeft_specNeighbours :
    specNeighbours NUM_BIRDS (flockLeft : Birds α) 1 VICINITY_DIST = [0]
      ∧ specNeighbours NUM_BIRDS (flockLeft : Birds α) 1 TOO_CLOSE_DIST = [] := by
  have h : within (flockLeft : Birds α) 1 VICINITY_DIST
      ((List.range NUM_BIRDS).filter (fun j => j ≠ 1))
      = ((List.range NUM_BIRDS).filter (fun j => j ≠ 1)).filter
          (fun j => decide (j = 0 ∨ j = 1)) :=
    List.filter_congr (fun j _ => flockLeft_vicinity_one j)
  have h2 : within (flockLeft : Birds α) 1 TOO_CLOSE_DIST
      ((List.range NUM_BIRDS).filter (fun j => j ≠ 1))
      = ((List.range NUM_BIRDS).filter (fun j => j ≠ 1)).filter
          (fun j => decide (j = 1)) :=
    List.filter_congr (fun j _ => flockLeft_too_close_one j)
  rw [specNeighbours, specNeighbours, h, h2]
  constructor <;> decide

theorem flockLeft_clamp_zero :
    Vector2ClampValue Real.sqrt
      (turn ((flockLeft : Birds ℝ).pos 0) ((flockLeft : Birds ℝ).dir 0)) 1 3 = ⟨11 / 10, 0⟩ := by
  have : turn ((flockLeft : Birds ℝ).pos 0) ((flockLeft : Birds ℝ).dir 0) = ⟨11 / 10, 0⟩ := by
    rw [turn_eq]
    simp only [flockLeft, SCREEN_MARGIN_eq, screenWidth_eq, screenHeight_eq, TURN_SPEED]
    norm_num
  rw [this]
  apply Vector2ClampValue_of_mem <;> norm_num

theorem flockLeft_dir_zero :
    (Step Real.sqrt NUM_BIRDS (flockLeft : Birds ℝ)).dir 0 = ⟨11 / 10, 0⟩ := by
  rw [Step_dir_eq _ _ _ 0 (by decide), stateBefore, steerLoop, headingBeforeClamp_index_zero]
  exact flockLeft_clamp_zero

theorem flockLeft_dir_one :
    (Step Real.sqrt NUM_BIRDS (flockLeft : Birds ℝ)).dir 1 = ⟨207 / 200, 0⟩ := by
  rw [Step_dir_eq _ _ _ 1 (by decide)]
  have h : headingBeforeClamp NUM_BIRDS (stateBefore Real.sqrt NUM_BIRDS (flockLeft : Birds ℝ) 1) 1
      = ⟨207 / 200, 0⟩ := by
    rw [headingBeforeClamp_index_one _ _ _ (by decide), flockLeft_clamp_zero, turn_eq]
    simp only [flockLeft, scanPair, steer, mass_centre_dir, dir_mean_scaled, repulsion_scaled,
      CheckCollisionPointCircle, Aggregates.zero, Vector2Add, Vector2Subtract, Vector2Scale,
      VICINITY_DIST_eq, TOO_CLOSE_DIST_eq, SCREEN_MARGIN_eq, screenWidth_eq, screenHeight_eq,
      TURN_SPEED, MASS_ATTRACTION_FACTOR, ALIGNMENT_FACTOR, REPULSION_FACTOR]
    norm_num
  rw [h]
  apply Vector2ClampValue_of_mem <;> norm_num

theorem flockLeft_twoPass_spec :
    (StepTwoPass Real.sqrt (specScan NUM_BIRDS) NUM_BIRDS (flockLeft : Birds ℝ)).dir 1
      = ⟨103 / 100, 0⟩ := by
  rw [StepTwoPass_dir _ _ _ _ 1 (by decide), specScan_eq, flockLeft_specNeighbours.1,
    flockLeft_specNeighbours.2]
  have h : turn ((flockLeft : Birds ℝ).pos 1)
      (steer flockLeft 1
        { num_vicinity := [0].length
          num_too_close := ([] : List Nat).length
          mass_centre := Vector2Sum ([0].map (flockLeft : Birds ℝ).pos)
          repulsion := Vector2Sum (([] : List Nat).map
            (fun j => Vector2Subtract ((flockLeft : Birds ℝ).pos 1) ((flockLeft : Birds ℝ).pos j)))
          dir_mean := Vector2Sum ([0].map (flockLeft : Birds ℝ).dir) }) = ⟨103 / 100, 0⟩ := by
    rw [turn_eq]
    simp only [flockLeft, steer, mass_centre_dir, dir_mean_scaled, repulsion_scaled,
      Vector2Sum, Vector2Add, Vector2Subtract, Vector2Scale, List.map, List.foldl,
      List.length, SCREEN_MARGIN_eq, screenWidth_eq, screenHeight_eq,
      TURN_SPEED, MASS_ATTRACTION_FACTOR, ALIGNMENT_FACTOR, REPULSION_FACTOR]
    norm_num
  rw [h]
  apply Vector2ClampValue_of_mem <;> norm_num

theorem flockLeft_twoPass_scan :
    (StepTwoPass Real.sqrt (scan NUM_BIRDS) NUM_BIRDS (flockLeft : Birds ℝ)).dir 1
      = ⟨103 / 100, 0⟩ := by
  rw [StepTwoPass_dir _ _ _ _ 1 (by decide), scan_index_one _ _ (by decide)]
  have h : turn ((flockLeft : Birds ℝ).pos 1)
      (steer flockLeft 1 (scanPair flockLeft 1 0 Aggregates.zero)) = ⟨103 / 100, 0⟩ := by
    rw [turn_eq]
    simp only [flockLeft, scanPair, steer, mass_centre_dir, dir_mean_scaled, repulsion_scaled,
      CheckCollisionPointCircle, Aggregates.zero, Vector2Add, Vector2Subtract, Vector2Scale,
      VICINITY_DIST_eq, TOO_CLOSE_DIST_eq, SCREEN_MARGIN_eq, screenWidth_eq, screenHeight_eq,
      TURN_SPEED, MASS_ATTRACTION_FACTOR, ALIGNMENT_FACTOR, REPULSION_FACTOR]
    norm_num
  rw [h]
  apply Vector2ClampValue_of_mem <;> norm_num

/-- C2 (snapshot, then commit) fails on the program.  In the flock `flockLeft` of 200
birds, all with heading `(1, 0)` at the start of the frame, bird 0 is turned to
`(11/10, 0)` by the left boundary zone; the scan of bird 1 then adds that updated
heading, not `(1, 0)`, to `dir_mean[1]`, so bird 1 ends with heading `(207/200, 0)`.
The two-pass procedure, with the aggregation of the specification as well as with
the scan of the program, gives bird 1 the heading `(103/100, 0)`. -/
theorem C2_heading_read_after_update :
    (∀ j, (flockLeft : Birds ℝ).dir j = ⟨1, 0⟩)
      ∧ (Step Real.sqrt NUM_BIRDS (flockLeft : Birds ℝ)).dir 0 = ⟨11 / 10, 0⟩
      ∧ (Step Real.sqrt NUM_BIRDS (flockLeft : Birds ℝ)).dir 1 = ⟨207 / 200, 0⟩
      ∧ (StepTwoPass Real.sqrt (specScan NUM_BIRDS) NUM_BIRDS (flockLeft : Birds ℝ)).dir 1
          = ⟨103 / 100, 0⟩
      ∧ (StepTwoPass Real.sqrt (scan NUM_BIRDS) NUM_BIRDS (flockLeft : Birds ℝ)).dir 1
          = ⟨103 / 100, 0⟩
      ∧ (Step Real.sqrt NUM_BIRDS (flockLeft : Birds ℝ)).dir 1
          ≠ (StepTwoPass Real.sqrt (specScan NUM_BIRDS) NUM_BIRDS (flockLeft : Birds ℝ)).dir 1
      ∧ (Step Real.sqrt NUM_BIRDS (flockLeft : Birds ℝ)).dir 1
          ≠ (StepTwoPass Real.sqrt (scan NUM_BIRDS) NUM_BIRDS (flockLeft : Birds ℝ)).dir 1 := by
  refine ⟨fun _ => rfl, flockLeft_dir_zero, flockLeft_dir_one, flockLeft_twoPass_spec,
    flockLeft_twoPass_scan, ?_, ?_⟩
  · rw [flockLeft_dir_one, flockLeft_twoPass_spec]
    simp only [ne_eq, Vector2.mk.injEq, not_and]
    norm_num
  · rw [flockLeft_dir_one, flockLeft_twoPass_scan]
    simp only [ne_eq, Vector2.mk.injEq, not_and]
    norm_num

/-! ## C3, C4: speed bound and index symmetry -/

theorem flockCancel_before_clamp :
    headingBeforeClamp NUM_BIRDS (stateBefore Real.sqrt NUM_BIRDS (flockCancel : Birds ℝ) 1) 1
      = ⟨0, 0⟩ := by
  have h0 : Vector2ClampValue Real.sqrt
      (turn ((flockCancel : Birds ℝ).pos 0) ((flockCancel : Birds ℝ).dir 0)) 1 3 = ⟨1, 0⟩ := by
    have : turn ((flockCancel : Birds ℝ).pos 0) ((flockCancel : Birds ℝ).dir 0) = ⟨1, 0⟩ := by
      rw [turn_eq]
      simp only [flockCancel, SCREEN_MARGIN_eq, screenWidth_eq, screenHeight_eq, TURN_SPEED]
      norm_num
    rw [this]
    apply Vector2ClampValue_of_mem <;> norm_num
  rw [headingBeforeClamp_index_one _ _ _ (by decide), h0, turn_eq]
  simp only [flockCancel, scanPair, steer, mass_centre_dir, dir_mean_scaled, repulsion_scaled,
    CheckCollisionPointCircle, Aggregates.zero, Vector2Add, Vector2Subtract, Vector2Scale,
    VICINITY_DIST_eq, TOO_CLOSE_DIST_eq, SCREEN_MARGIN_eq, screenWidth_eq, screenHeight_eq,
    TURN_SPEED, MASS_ATTRACTION_FACTOR, ALIGNMENT_FACTOR, REPULSION_FACTOR]
  norm_num

theorem flockCancel_dir_one :
    (Step Real.sqrt NUM_BIRDS (flockCancel : Birds ℝ)).dir 1 = ⟨0, 0⟩ := by
  rw [Step_dir_eq _ _ _ 1 (by decide), flockCancel_before_clamp, Vector2ClampValue_zero]

/-- C3 (speed bound, exact real arithmetic) fails on the program.  In the flock
`flockCancel` of 200 birds every heading has length in `[1, 3]` at the start of the
frame, but the steering terms of bird 1 cancel its heading `(-26/25, 0)` exactly:
cohesion `(-1/100, 0)`, alignment `(1/20, 0)` and separation `(1, 0)`.  The clamp of
line 161 returns the zero vector unchanged, so after the frame the heading of bird 1
is `(0, 0)`, of length `0 < 1`. -/
theorem C3_zero_heading_after_clamp :
    (∀ i, i < NUM_BIRDS →
        1 ≤ Vector2Length Real.sqrt ((flockCancel : Birds ℝ).dir i)
          ∧ Vector2Length Real.sqrt ((flockCancel : Birds ℝ).dir i) ≤ 3)
      ∧ (Step Real.sqrt NUM_BIRDS (flockCancel : Birds ℝ)).dir 1 = ⟨0, 0⟩
      ∧ ¬ (1 ≤ Vector2Length Real.sqrt ((Step Real.sqrt NUM_BIRDS (flockCancel : Birds ℝ)).dir 1)) := by
  refine ⟨?_, flockCancel_dir_one, ?_⟩
  · intro i _
    by_cases h : i = 1
    · subst h
      simp only [flockCancel, if_true, Vector2Length_x_axis]
      rw [abs_of_neg (by norm_num)]
      constructor <;> norm_num
    · simp only [flockCancel, if_neg h, Vector2Length_x_axis]
      rw [abs_of_pos (by norm_num)]
      constructor <;> norm_num
  · rw [flockCancel_dir_one]
    simp [Vector2Length]

theorem flockTwin_far (j : Nat) (h0 : j ≠ 0) (h1 : j ≠ 1) (k : Nat) (hk : k = 0 ∨ k = 1) :
    CheckCollisionPointCircle ((flockTwin : Birds ℝ).pos j) ((flockTwin : Birds ℝ).pos k)
      (VICINITY_DIST : ℝ) = false := by
  rcases hk with hk | hk <;> subst hk <;>
    simp only [flockTwin, CheckCollisionPointCircle, VICINITY_DIST_eq, if_neg h0, if_neg h1] <;>
    norm_num

/-- C4 (index symmetry) fails on the program.  In the flock `flockTwin` of 200 birds,
birds 0 and 1 have the same position `(500, 500)`, outside every boundary zone, and the
same heading `(1, 0)`, and no other bird passes the vicinity test of either.  The scan
of bird 0 examines no bird and bird 0 keeps the heading `(1, 0)`; the scan of bird 1
examines bird 0 and bird 1 gets the heading `(21/20, 0)`.  Headings and positions of
the two birds differ after the frame. -/
theorem C4_twins_diverge :
    (flockTwin : Birds ℝ).pos 0 = (flockTwin : Birds ℝ).pos 1
      ∧ (flockTwin : Birds ℝ).dir 0 = (flockTwin : Birds ℝ).dir 1
      ∧ (∀ j, j < NUM_BIRDS → j ≠ 0 → j ≠ 1 →
          CheckCollisionPointCircle ((flockTwin : Birds ℝ).pos j) ((flockTwin : Birds ℝ).pos 0)
              (VICINITY_DIST : ℝ) = false
            ∧ CheckCollisionPointCircle ((flockTwin : Birds ℝ).pos j)
              ((flockTwin : Birds ℝ).pos 1) (VICINITY_DIST : ℝ) = false)
      ∧ turn ((flockTwin : Birds ℝ).pos 0) ((flockTwin : Birds ℝ).dir 0)
          = (flockTwin : Birds ℝ).dir 0
      ∧ (Step Real.sqrt NUM_BIRDS (flockTwin : Birds ℝ)).dir 0 = ⟨1, 0⟩
      ∧ (Step Real.sqrt NUM_BIRDS (flockTwin : Birds ℝ)).dir 1 = ⟨21 / 20, 0⟩
      ∧ (Step Real.sqrt NUM_BIRDS (flockTwin : Birds ℝ)).pos 0 = ⟨502, 500⟩
      ∧ (Step Real.sqrt NUM_BIRDS (flockTwin : Birds ℝ)).pos 1 = ⟨5021 / 10, 500⟩
      ∧ (Step Real.sqrt NUM_BIRDS (flockTwin : Birds ℝ)).dir 0
          ≠ (Step Real.sqrt NUM_BIRDS (flockTwin : Birds ℝ)).dir 1
      ∧ (Step Real.sqrt NUM_BIRDS (flockTwin : Birds ℝ)).pos 0
          ≠ (Step Real.sqrt NUM_BIRDS (flockTwin : Birds ℝ)).pos 1 := by
  have hp0 : (Step Real.sqrt NUM_BIRDS (flockTwin : Birds ℝ)).pos 0 = ⟨502, 500⟩ := by
    rw [Step_pos_eq _ _ _ 0 (by decide), flockTwin_dir_zero]
    simp only [flockTwin, Vector2Add, Vector2Scale]
    norm_num
  have hp1 : (Step Real.sqrt NUM_BIRDS (flockTwin : Birds ℝ)).pos 1 = ⟨5021 / 10, 500⟩ := by
    rw [Step_pos_eq _ _ _ 1 (by decide), flockTwin_dir_one]
    simp only [flockTwin, Vector2Add, Vector2Scale]
    norm_num
  refine ⟨rfl, rfl, ?_, ?_, flockTwin_dir_zero, flockTwin_dir_one, hp0, hp1, ?_, ?_⟩
  · intro j _ h0 h1
    exact ⟨flockTwin_far j h0 h1 0 (Or.inl rfl), flockTwin_far j h0 h1 1 (Or.inr rfl)⟩
  · rw [turn_eq]
    simp only [flockTwin, SCREEN_MARGIN_eq, screenWidth_eq, screenHeight_eq, TURN_SPEED]
    norm_num
  · rw [flockTwin_dir_zero, flockTwin_dir_one]
    simp only [ne_eq, Vector2.mk.injEq, not_and]
    norm_num
  · rw [hp0, hp1]
    simp only [ne_eq, Vector2.mk.injEq, not_and]
    norm_num

/-! ## C5, C6: self-exclusion and zero-neighbour invariance -/

/-- C5 (self-exclusion).  The scan of bird `i` is the fold of the pair body over the
indices `0, ..., min n i - 1`, none of which is `i`: its counts and sums range over
birds of index below `i` only, so the own position, heading and zero repulsion
vector of bird `i` are never accumulated, although the pair `(i, i)` would pass both
radius tests. -/
theorem C5_self_exclusion (n : Nat) (b : Birds α) (i : Nat) :
    scan n b i =
        (List.range (min n i)).foldl (fun acc j => scanPair b i j acc) Aggregates.zero
      ∧ i ∉ List.range (min n i)
      ∧ (∀ j ∈ List.range (min n i), j < n ∧ j ≠ i)
      ∧ scan n b i =
        { num_vicinity := (within b i VICINITY_DIST (List.range (min n i))).length
          num_too_close := (within b i TOO_CLOSE_DIST (List.range (min n i))).length
          mass_centre :=
            Vector2Sum ((within b i VICINITY_DIST (List.range (min n i))).map b.pos)
          repulsion := Vector2Sum ((within b i TOO_CLOSE_DIST (List.range (min n i))).map
            (fun j => Vector2Subtract (b.pos i) (b.pos j)))
          dir_mean :=
            Vector2Sum ((within b i VICINITY_DIST (List.range (min n i))).map b.dir) }
      ∧ (∀ j ∈ within b i VICINITY_DIST (List.range (min n i)), j ≠ i)
      ∧ (∀ j ∈ within b i TOO_CLOSE_DIST (List.range (min n i)), j ≠ i)
      ∧ (∀ v : Vector2 α, scan n { b with dir := Function.update b.dir i v } i = scan n b i)
      ∧ CheckCollisionPointCircle (b.pos i) (b.pos i) (VICINITY_DIST : α) = true
      ∧ CheckCollisionPointCircle (b.pos i) (b.pos i) (TOO_CLOSE_DIST : α) = true := by
  refine ⟨scan_eq_foldl n b i, ?_, ?_, scan_eq n b i, ?_, ?_, ?_,
    CheckCollisionPointCircle_self _ _, CheckCollisionPointCircle_self _ _⟩
  · simp
  · intro j hj
    have := List.mem_range.mp hj
    omega
  · intro j hj
    have := List.mem_range.mp (List.mem_filter.mp hj).1
    omega
  · intro j hj
    have := List.mem_range.mp (List.mem_filter.mp hj).1
    omega
  · intro v
    apply scan_congr
    · intro j _; rfl
    · intro j hj
      have : j ≠ i := by omega
      simp [Function.update_noteq this]

/-- C6 (zero-neighbour invariance).  If no other bird of the flock passes the
vicinity test of bird `i`, then in iteration `i` of the main loop the three steering
terms are the zero vector and the heading before the clamp is the heading of the start
of the frame plus the boundary corrections of the position of bird `i`; it is that
heading itself when the bird is outside the four boundary zones. -/
theorem C6_zero_neighbour_invariance (sqrt : α → α) (n : Nat) (b : Birds α) (i : Nat)
    (h : ∀ j, j < n → j ≠ i →
      CheckCollisionPointCircle (b.pos j) (b.pos i) (VICINITY_DIST : α) = false) :
    (scan n (stateBefore sqrt n b i) i).num_vicinity = 0
      ∧ (scan n (stateBefore sqrt n b i) i).num_too_close = 0
      ∧ mass_centre_dir ((stateBefore sqrt n b i).pos i) (scan n (stateBefore sqrt n b i) i)
          = ⟨0, 0⟩
      ∧ dir_mean_scaled (scan n (stateBefore sqrt n b i) i) = ⟨0, 0⟩
      ∧ repulsion_scaled (scan n (stateBefore sqrt n b i) i) = ⟨0, 0⟩
      ∧ headingAfterSteer n (stateBefore sqrt n b i) i = b.dir i
      ∧ headingBeforeClamp n (stateBefore sqrt n b i) i =
          ⟨(b.dir i).x + (if (b.pos i).x < (SCREEN_MARGIN : α) then TURN_SPEED else 0)
              - (if (b.pos i).x > (screenWidth : α) - (SCREEN_MARGIN : α) then TURN_SPEED
                  else 0),
            (b.dir i).y + (if (b.pos i).y < (SCREEN_MARGIN : α) then TURN_SPEED else 0)
              - (if (b.pos i).y > (screenHeight : α) - (SCREEN_MARGIN : α) then TURN_SPEED
                  else 0)⟩
      ∧ ((SCREEN_MARGIN : α) ≤ (b.pos i).x
          → (b.pos i).x ≤ (screenWidth : α) - (SCREEN_MARGIN : α)
          → (SCREEN_MARGIN : α) ≤ (b.pos i).y
          → (b.pos i).y ≤ (screenHeight : α) - (SCREEN_MARGIN : α)
          → headingBeforeClamp n (stateBefore sqrt n b i) i = b.dir i) := by
  have hs : scan n (stateBefore sqrt n b i) i = Aggregates.zero := by
    apply scan_of_isolated
    intro j hj hji
    rw [stateBefore_pos]
    exact h j hj (by omega)
  have hsteer : headingAfterSteer n (stateBefore sqrt n b i) i = b.dir i := by
    rw [headingAfterSteer, hs, steer_zero, stateBefore_dir_of_le sqrt n b i i le_rfl]
  have hclamp : headingBeforeClamp n (stateBefore sqrt n b i) i = turn (b.pos i) (b.dir i) := by
    rw [headingBeforeClamp, hsteer, stateBefore_pos]
  refine ⟨?_, ?_, ?_, ?_, ?_, hsteer, ?_, ?_⟩
  · rw [hs]; rfl
  · rw [hs]; rfl
  · rw [hs]; simp [mass_centre_dir, Aggregates.zero]
  · rw [hs]; simp [dir_mean_scaled, Aggregates.zero]
  · rw [hs]; simp [repulsion_scaled, Aggregates.zero]
  · rw [hclamp, turn_eq]
  · intro hx1 hx2 hy1 hy2
    rw [hclamp, turn_interior _ _ hx1 hx2 hy1 hy2]

theorem flockEdge_isolated (j : Nat) (hj : j ≠ 1) :
    CheckCollisionPointCircle ((flockEdge : Birds α).pos j) ((flockEdge : Birds α).pos 1)
      (VICINITY_DIST : α) = false := by
  simp only [flockEdge, if_neg hj, CheckCollisionPointCircle, VICINITY_DIST_eq]
  norm_num

/-- Witness of C6: bird 1 of `flockEdge`, alone in its vicinity among 200 birds. -/
theorem C6_zero_neighbour_invariance_witness :
    (∀ j, j < NUM_BIRDS → j ≠ 1 →
      CheckCollisionPointCircle ((flockEdge : Birds ℚ).pos j) ((flockEdge : Birds ℚ).pos 1)
        (VICINITY_DIST : ℚ) = false)
      ∧ headingAfterSteer NUM_BIRDS (stateBefore Rat.sqrt NUM_BIRDS (flockEdge : Birds ℚ) 1) 1
          = (flockEdge : Birds ℚ).dir 1 :=
  ⟨fun j _ hj => flockEdge_isolated j hj,
    (C6_zero_neighbour_invariance Rat.sqrt NUM_BIRDS flockEdge 1
      (fun j _ hj => flockEdge_isolated j hj)).2.2.2.2.2.1⟩

/-! ## C8: boundary correction -/

/-- C8 (boundary correction).  In iteration `i` of the main loop the heading before
the clamp is the heading after steering with `TURN_SPEED` added to `x` when the
position of the bird (that of the start of the frame, not yet integrated) has
`x < SCREEN_MARGIN`, subtracted from `x` when `x > screenWidth - SCREEN_MARGIN`, and
the same for `y` with `screenHeight`; each correction is present exactly when its test
holds and nothing else is changed. -/
theorem C8_boundary_correction (sqrt : α → α) (n : Nat) (b : Birds α) (i : Nat) :
    (stateBefore sqrt n b i).pos i = b.pos i
      ∧ headingBeforeClamp n (stateBefore sqrt n b i) i =
          ⟨(headingAfterSteer n (stateBefore sqrt n b i) i).x
              + (if (b.pos i).x < (SCREEN_MARGIN : α) then TURN_SPEED else 0)
              - (if (b.pos i).x > (screenWidth : α) - (SCREEN_MARGIN : α) then TURN_SPEED
                  else 0),
            (headingAfterSteer n (stateBefore sqrt n b i) i).y
              + (if (b.pos i).y < (SCREEN_MARGIN : α) then TURN_SPEED else 0)
              - (if (b.pos i).y > (screenHeight : α) - (SCREEN_MARGIN : α) then TURN_SPEED
                  else 0)⟩
      ∧ ((headingBeforeClamp n (stateBefore sqrt n b i) i).x
            - (headingAfterSteer n (stateBefore sqrt n b i) i).x = TURN_SPEED
          ↔ (b.pos i).x < (SCREEN_MARGIN : α))
      ∧ ((headingBeforeClamp n (stateBefore sqrt n b i) i).x
            - (headingAfterSteer n (stateBefore sqrt n b i) i).x = -TURN_SPEED
          ↔ (b.pos i).x > (screenWidth : α) - (SCREEN_MARGIN : α))
      ∧ ((headingBeforeClamp n (stateBefore sqrt n b i) i).y
            - (headingAfterSteer n (stateBefore sqrt n b i) i).y = TURN_SPEED
          ↔ (b.pos i).y < (SCREEN_MARGIN : α))
      ∧ ((headingBeforeClamp n (stateBefore sqrt n b i) i).y
            - (headingAfterSteer n (stateBefore sqrt n b i) i).y = -TURN_SPEED
          ↔ (b.pos i).y > (screenHeight : α) - (SCREEN_MARGIN : α)) := by
  have hp : (stateBefore sqrt n b i).pos i = b.pos i := by rw [stateBefore_pos]
  have ht : headingBeforeClamp n (stateBefore sqrt n b i) i
      = turn (b.pos i) (headingAfterSteer n (stateBefore sqrt n b i) i) := by
    rw [headingBeforeClamp, hp]
  rw [ht, turn_eq]
  refine ⟨hp, rfl, ?_, ?_, ?_, ?_⟩
  all_goals
    simp only [SCREEN_MARGIN_eq, screenWidth_eq, screenHeight_eq, TURN_SPEED]
    push_cast
    constructor
    · intro h
      split_ifs at h with h1 h2 <;> first | assumption | (exfalso; linarith)
    · intro h
      split_ifs with h1 <;> first | (exfalso; linarith) | ring

/-- Witness of C8: bird 1 of `flockEdge` is at `x = SCREEN_MARGIN - 1` with `y` in
the interior, heading `(0, 1)` and no bird in its vicinity; its heading before the
clamp is `(TURN_SPEED, 1)`. -/
theorem C8_boundary_correction_witness :
    ((flockEdge : Birds ℚ).pos 1).x = (SCREEN_MARGIN : ℚ) - 1
      ∧ (flockEdge : Birds ℚ).dir 1 = ⟨0, 1⟩
      ∧ headingBeforeClamp NUM_BIRDS (stateBefore Rat.sqrt NUM_BIRDS (flockEdge : Birds ℚ) 1) 1
          = ⟨TURN_SPEED, 1⟩ := by
  refine ⟨by simp [flockEdge, SCREEN_MARGIN_eq]; norm_num, rfl, ?_⟩
  have hs : headingAfterSteer NUM_BIRDS (stateBefore Rat.sqrt NUM_BIRDS (flockEdge : Birds ℚ) 1) 1
      = ⟨0, 1⟩ := by
    rw [headingAfterSteer, scan_of_isolated, steer_zero, stateBefore_dir_of_le _ _ _ _ _ le_rfl]
    · rfl
    · intro j _ hj
      rw [stateBefore_pos]
      exact flockEdge_isolated j (by omega)
  rw [(C8_boundary_correction Rat.sqrt NUM_BIRDS (flockEdge : Birds ℚ) 1).2.1, hs]
  simp only [flockEdge, SCREEN_MARGIN_eq, screenWidth_eq, screenHeight_eq, TURN_SPEED]
  norm_num

/-! ## C10: the triangle -/

/-- The real length of a real vector that is not zero is positive and squares to
the sum of the squares of the components. -/
theorem Vector2Length_pos (d : Vector2 ℝ) (hd : d ≠ ⟨0, 0⟩) :
    0 < Vector2Length Real.sqrt d
      ∧ Vector2Length Real.sqrt d * Vector2Length Real.sqrt d = d.x * d.x + d.y * d.y := by
  have hpos : 0 < d.x * d.x + d.y * d.y := (sq_length_pos_iff d).mpr hd
  exact ⟨Real.sqrt_pos.mpr hpos, Real.mul_self_sqrt (le_of_lt hpos)⟩

/-- C10 as amended (triangle formula in exact real arithmetic).  For a heading `d` that is not
zero, with `u = d / |d|`, `GetTriangle` returns `p1 = p + 25 u`,
`p2 = p + 10 (u.y, -u.x)` and `p3 = p - 10 (u.y, -u.x)`, where `25 = 5*BIRD_SIZE/2`
and `10 = BIRD_SIZE`; `u` has length 1, and `p1 - p` is a positive multiple of `d` of
length exactly 25. -/
theorem C10_triangle_formula (p d : Vector2 ℝ) (hd : d ≠ ⟨0, 0⟩) :
    (5 * BIRD_SIZE / 2 = 25 ∧ BIRD_SIZE = 10)
      ∧ (GetTriangle Real.sqrt p d).p1 =
          ⟨p.x + 25 * (d.x / Vector2Length Real.sqrt d),
            p.y + 25 * (d.y / Vector2Length Real.sqrt d)⟩
      ∧ (GetTriangle Real.sqrt p d).p2 =
          ⟨p.x + 10 * (d.y / Vector2Length Real.sqrt d),
            p.y + 10 * (-(d.x / Vector2Length Real.sqrt d))⟩
      ∧ (GetTriangle Real.sqrt p d).p3 =
          ⟨p.x - 10 * (d.y / Vector2Length Real.sqrt d),
            p.y - 10 * (-(d.x / Vector2Length Real.sqrt d))⟩
      ∧ Vector2Length Real.sqrt
          ⟨d.x / Vector2Length Real.sqrt d, d.y / Vector2Length Real.sqrt d⟩ = 1
      ∧ (∃ c : ℝ, 0 < c ∧
          Vector2Subtract (GetTriangle Real.sqrt p d).p1 p = Vector2Scale d c)
      ∧ Vector2Length Real.sqrt (Vector2Subtract (GetTriangle Real.sqrt p d).p1 p) = 25 := by
  obtain ⟨hL, hLL⟩ := Vector2Length_pos d hd
  have hh : ((5 * BIRD_SIZE / 2 : Int) : ℝ) = 25 := by
    rw [show (5 * BIRD_SIZE / 2 : Int) = 25 by decide]; norm_num
  have hw : ((BIRD_SIZE : Int) : ℝ) = 10 := by
    rw [show (BIRD_SIZE : Int) = 10 by decide]; norm_num
  have hT : GetTriangle Real.sqrt p d =
      { p1 := ⟨p.x + d.x * (1 / Vector2Length Real.sqrt d) * 25,
          p.y + d.y * (1 / Vector2Length Real.sqrt d) * 25⟩
        p2 := ⟨p.x + d.y * (1 / Vector2Length Real.sqrt d) * 10,
          p.y + -(d.x * (1 / Vector2Length Real.sqrt d)) * 10⟩
        p3 := ⟨p.x - d.y * (1 / Vector2Length Real.sqrt d) * 10,
          p.y - -(d.x * (1 / Vector2Length Real.sqrt d)) * 10⟩ } := by
    simp only [GetTriangle, Vector2Add, Vector2Subtract, Vector2Scale, hh, hw]
  rw [hT]
  generalize Vector2Length Real.sqrt d = L at hL hLL
  have hne : L ≠ 0 := ne_of_gt hL
  have hunit : d.x / L * (d.x / L) + d.y / L * (d.y / L) = 1 := by
    field_simp
    linarith
  refine ⟨⟨by decide, by decide⟩, ?_, ?_, ?_, ?_, ⟨25 / L, div_pos (by norm_num) hL, ?_⟩, ?_⟩
  · simp only [Vector2.mk.injEq]; constructor <;> ring
  · simp only [Vector2.mk.injEq]; constructor <;> ring
  · simp only [Vector2.mk.injEq]; constructor <;> ring
  · rw [Vector2Length]
    simp only [hunit, Real.sqrt_one]
  · simp only [Vector2Subtract, Vector2Scale, Vector2.mk.injEq]; constructor <;> ring
  · have h25 : (p.x + d.x * (1 / L) * 25 - p.x) * (p.x + d.x * (1 / L) * 25 - p.x)
        + (p.y + d.y * (1 / L) * 25 - p.y) * (p.y + d.y * (1 / L) * 25 - p.y) = 25 * 25 := by
      have : (p.x + d.x * (1 / L) * 25 - p.x) * (p.x + d.x * (1 / L) * 25 - p.x)
        + (p.y + d.y * (1 / L) * 25 - p.y) * (p.y + d.y * (1 / L) * 25 - p.y)
          = 625 * (d.x / L * (d.x / L) + d.y / L * (d.y / L)) := by ring
      rw [this, hunit]; norm_num
    simp only [Vector2Subtract, Vector2Length, h25]
    exact Real.sqrt_mul_self (by norm_num)

/-- Witness of C10: position `(0, 0)` and heading `(3, 4)`. -/
theorem C10_triangle_formula_witness :
    (⟨3, 4⟩ : Vector2 ℝ) ≠ ⟨0, 0⟩
      ∧ Vector2Length Real.sqrt
          (Vector2Subtract (GetTriangle Real.sqrt ⟨0, 0⟩ ⟨3, 4⟩).p1 (⟨0, 0⟩ : Vector2 ℝ)) = 25 :=
  ⟨by simp, (C10_triangle_formula ⟨0, 0⟩ ⟨3, 4⟩ (by simp)).2.2.2.2.2.2⟩

/-! ## C12: the isosceles shape, and the zero divisor of C11 in exact arithmetic -/

/-- Every heading of `flockCancel` has real length in `[1, 3]`. -/
theorem flockCancel_lengths (i : Nat) :
    1 ≤ Vector2Length Real.sqrt ((flockCancel : Birds ℝ).dir i)
      ∧ Vector2Length Real.sqrt ((flockCancel : Birds ℝ).dir i) ≤ 3 := by
  by_cases h : i = 1
  · subst h
    simp only [flockCancel, if_true, Vector2Length_x_axis]
    rw [abs_of_neg (by norm_num)]
    constructor <;> norm_num
  · simp only [flockCancel, if_neg h, Vector2Length_x_axis]
    rw [abs_of_pos (by norm_num)]
    constructor <;> norm_num

/-- In exact real arithmetic every heading of the 200 birds of `flockCancel` has
length in `[1, 3]`, yet after the main loop the heading of bird 1 is `(0, 0)`:
`StepPosition` passes it to `GetTriangle`, whose divisor `Vector2Length(dir)` is `0`. -/
theorem flockCancel_real_zero_divisor :
    (∀ i, i < NUM_BIRDS →
        1 ≤ Vector2Length Real.sqrt ((flockCancel : Birds ℝ).dir i)
          ∧ Vector2Length Real.sqrt ((flockCancel : Birds ℝ).dir i) ≤ 3)
      ∧ (steerLoop Real.sqrt NUM_BIRDS NUM_BIRDS 0 (flockCancel : Birds ℝ)).dir 1 = ⟨0, 0⟩
      ∧ (Step Real.sqrt NUM_BIRDS (flockCancel : Birds ℝ)).triangle 1 =
          GetTriangle Real.sqrt ((Step Real.sqrt NUM_BIRDS (flockCancel : Birds ℝ)).pos 1) ⟨0, 0⟩
      ∧ Vector2Length Real.sqrt
          ((steerLoop Real.sqrt NUM_BIRDS NUM_BIRDS 0 (flockCancel : Birds ℝ)).dir 1) = 0 := by
  have h : (steerLoop Real.sqrt NUM_BIRDS NUM_BIRDS 0 (flockCancel : Birds ℝ)).dir 1 = ⟨0, 0⟩ := by
    rw [← Step_dir]; exact flockCancel_dir_one
  refine ⟨fun i _ => flockCancel_lengths i, h, ?_, ?_⟩
  · rw [Step_triangle_eq _ _ _ 1 (by decide), flockCancel_dir_one]
  · rw [h]; simp [Vector2Length]

/-- The three vertices that `GetTriangle` computes, written out. -/
theorem GetTriangle_eq (p d : Vector2 ℝ) :
    GetTriangle Real.sqrt p d =
      { p1 := ⟨p.x + d.x * (1 / Vector2Length Real.sqrt d) * 25,
          p.y + d.y * (1 / Vector2Length Real.sqrt d) * 25⟩
        p2 := ⟨p.x + d.y * (1 / Vector2Length Real.sqrt d) * 10,
          p.y + -(d.x * (1 / Vector2Length Real.sqrt d)) * 10⟩
        p3 := ⟨p.x - d.y * (1 / Vector2Length Real.sqrt d) * 10,
          p.y - -(d.x * (1 / Vector2Length Real.sqrt d)) * 10⟩ } := by
  have hh : ((5 * BIRD_SIZE / 2 : Int) : ℝ) = 25 := by
    rw [show (5 * BIRD_SIZE / 2 : Int) = 25 by decide]; norm_num
  have hw : ((BIRD_SIZE : Int) : ℝ) = 10 := by
    rw [show (BIRD_SIZE : Int) = 10 by decide]; norm_num
  simp only [GetTriangle, Vector2Add, Vector2Subtract, Vector2Scale, hh, hw]

/-- C12 as amended (isosceles shape in exact real arithmetic).  For every position `p` and every
heading `d` that is not zero, the apex `p1` of the triangle of `GetTriangle` is at
distance `sqrt(25^2 + 10^2)` from each of the base vertices `p2` and `p3`, whatever
`p` and `d` are. -/
theorem C12_isosceles (p d : Vector2 ℝ) (hd : d ≠ ⟨0, 0⟩) :
    Vector2Length Real.sqrt
        (Vector2Subtract (GetTriangle Real.sqrt p d).p1 (GetTriangle Real.sqrt p d).p2)
        = Real.sqrt (25 ^ 2 + 10 ^ 2)
      ∧ Vector2Length Real.sqrt
        (Vector2Subtract (GetTriangle Real.sqrt p d).p1 (GetTriangle Real.sqrt p d).p3)
        = Real.sqrt (25 ^ 2 + 10 ^ 2)
      ∧ Vector2Length Real.sqrt
        (Vector2Subtract (GetTriangle Real.sqrt p d).p1 (GetTriangle Real.sqrt p d).p2)
        = Vector2Length Real.sqrt
        (Vector2Subtract (GetTriangle Real.sqrt p d).p1 (GetTriangle Real.sqrt p d).p3) := by
  obtain ⟨hL, hLL⟩ := Vector2Length_pos d hd
  rw [GetTriangle_eq]
  generalize Vector2Length Real.sqrt d = L at hL hLL
  have hne : L ≠ 0 := ne_of_gt hL
  have hunit : d.x / L * (d.x / L) + d.y / L * (d.y / L) = 1 := by
    field_simp
    linarith
  have h2 : (p.x + d.x * (1 / L) * 25 - (p.x + d.y * (1 / L) * 10))
        * (p.x + d.x * (1 / L) * 25 - (p.x + d.y * (1 / L) * 10))
      + (p.y + d.y * (1 / L) * 25 - (p.y + -(d.x * (1 / L)) * 10))
        * (p.y + d.y * (1 / L) * 25 - (p.y + -(d.x * (1 / L)) * 10)) = 25 ^ 2 + 10 ^ 2 := by
    have : (p.x + d.x * (1 / L) * 25 - (p.x + d.y * (1 / L) * 10))
        * (p.x + d.x * (1 / L) * 25 - (p.x + d.y * (1 / L) * 10))
      + (p.y + d.y * (1 / L) * 25 - (p.y + -(d.x * (1 / L)) * 10))
        * (p.y + d.y * (1 / L) * 25 - (p.y + -(d.x * (1 / L)) * 10))
        = 725 * (d.x / L * (d.x / L) + d.y / L * (d.y / L)) := by ring
    rw [this, hunit]; norm_num
  have h3 : (p.x + d.x * (1 / L) * 25 - (p.x - d.y * (1 / L) * 10))
        * (p.x + d.x * (1 / L) * 25 - (p.x - d.y * (1 / L) * 10))
      + (p.y + d.y * (1 / L) * 25 - (p.y - -(d.x * (1 / L)) * 10))
        * (p.y + d.y * (1 / L) * 25 - (p.y - -(d.x * (1 / L)) * 10)) = 25 ^ 2 + 10 ^ 2 := by
    have : (p.x + d.x * (1 / L) * 25 - (p.x - d.y * (1 / L) * 10))
        * (p.x + d.x * (1 / L) * 25 - (p.x - d.y * (1 / L) * 10))
      + (p.y + d.y * (1 / L) * 25 - (p.y - -(d.x * (1 / L)) * 10))
        * (p.y + d.y * (1 / L) * 25 - (p.y - -(d.x * (1 / L)) * 10))
        = 725 * (d.x / L * (d.x / L) + d.y / L * (d.y / L)) := by ring
    rw [this, hunit]; norm_num
  simp only [Vector2Subtract, Vector2Length, h2, h3, and_self]

/-- Witness of C12: position `(500, 500)` and heading `(1, 3)`. -/
theorem C12_isosceles_witness :
    (⟨1, 3⟩ : Vector2 ℝ) ≠ ⟨0, 0⟩
      ∧ Vector2Length Real.sqrt
          (Vector2Subtract (GetTriangle Real.sqrt ⟨500, 500⟩ ⟨1, 3⟩).p1
            (GetTriangle Real.sqrt (⟨500, 500⟩ : Vector2 ℝ) ⟨1, 3⟩).p2)
        = Vector2Length Real.sqrt
          (Vector2Subtract (GetTriangle Real.sqrt ⟨500, 500⟩ ⟨1, 3⟩).p1
            (GetTriangle Real.sqrt (⟨500, 500⟩ : Vector2 ℝ) ⟨1, 3⟩).p3) :=
  ⟨by simp, (C12_isosceles ⟨500, 500⟩ ⟨1, 3⟩ (by simp)).2.2⟩

/-! ## C13, C14: the initial flock -/

/-- Rotating `(1, 0)` by any real angle gives a vector of length 1. -/
theorem Vector2Rotate_length (a : ℝ) :
    Vector2Length Real.sqrt (Vector2Rotate Real.cos Real.sin ⟨1, 0⟩ a) = 1 := by
  have h : (1 * Real.cos a - 0 * Real.sin a) * (1 * Real.cos a - 0 * Real.sin a)
      + (1 * Real.sin a + 0 * Real.cos a) * (1 * Real.sin a + 0 * Real.cos a) = 1 := by
    have := Real.cos_sq_add_sin_sq a
    nlinarith
  simp only [Vector2Length, Vector2Rotate, h, Real.sqrt_one]

/-- C13 as amended (initial headings are unit vectors in exact real arithmetic).  Whatever the
random source returns, the initial heading of every bird `i < n` is `Vector2Rotate`
of `(1, 0)` by the angle drawn for it and has length exactly 1, hence lies in
`[1, 3]` and is not the zero vector when its initial triangle is computed; in
particular this holds for the rotation by every integer angle `0, ..., 359`. -/
theorem C13_initial_heading_unit (rand : Int → Int → Nat → Int) (n : Nat) (b : Birds ℝ)
    (i : Nat) (hi : i < n) :
    (Init Real.sqrt Real.cos Real.sin rand n b).dir i =
        Vector2Rotate Real.cos Real.sin ⟨1, 0⟩ ((rand 0 359 (3 * i + 2) : Int) : ℝ)
      ∧ Vector2Length Real.sqrt ((Init Real.sqrt Real.cos Real.sin rand n b).dir i) = 1
      ∧ 1 ≤ Vector2Length Real.sqrt ((Init Real.sqrt Real.cos Real.sin rand n b).dir i)
      ∧ Vector2Length Real.sqrt ((Init Real.sqrt Real.cos Real.sin rand n b).dir i) ≤ 3
      ∧ (Init Real.sqrt Real.cos Real.sin rand n b).dir i ≠ ⟨0, 0⟩
      ∧ (Init Real.sqrt Real.cos Real.sin rand n b).triangle i =
          GetTriangle Real.sqrt ((Init Real.sqrt Real.cos Real.sin rand n b).pos i)
            ((Init Real.sqrt Real.cos Real.sin rand n b).dir i)
      ∧ (∀ a : Int, 0 ≤ a → a ≤ 359 →
          Vector2Length Real.sqrt (Vector2Rotate Real.cos Real.sin ⟨1, 0⟩ (a : ℝ)) = 1) := by
  obtain ⟨_, h2, h3⟩ :=
    initLoop_inside Real.sqrt Real.cos Real.sin rand n 0 b i (Nat.zero_le i) (by omega)
  have hlen : Vector2Length Real.sqrt ((Init Real.sqrt Real.cos Real.sin rand n b).dir i) = 1 := by
    rw [Init, h2, Vector2Rotate_length]
  refine ⟨h2, hlen, by rw [hlen], by rw [hlen]; norm_num, ?_, h3,
    fun a _ _ => Vector2Rotate_length a⟩
  intro h0
  rw [h0] at hlen
  simp [Vector2Length] at hlen

/-- Witness of C13: bird 0 of 200, with the random source that draws the angle 1. -/
theorem C13_initial_heading_unit_witness :
    0 < NUM_BIRDS
      ∧ Vector2Length Real.sqrt
          ((Init Real.sqrt Real.cos Real.sin randAngleOne NUM_BIRDS (flockEdge : Birds ℝ)).dir 0)
          = 1 :=
  ⟨by decide,
    (C13_initial_heading_unit randAngleOne NUM_BIRDS flockEdge 0 (by decide)).2.1⟩

theorem randLow_inRange : RandomInRange randLow := by
  intro lo hi k h
  exact ⟨le_refl lo, h⟩

/-- Counterexample to C14 as stated.  The random source that returns the lower end
of every range respects the contract of `GetRandomValue`, and with it bird 0 starts
at `(50, 50)`: its coordinates are below `SCREEN_MARGIN = 100`, so the bird starts
inside the left and the top boundary zones, where the boundary tests change the
heading `(1, 0)` to `(11/10, 1/10)`. -/
theorem C14_counterexample :
    RandomInRange randLow
      ∧ (Init Real.sqrt Real.cos Real.sin randLow NUM_BIRDS (flockEdge : Birds ℝ)).pos 0
          = ⟨50, 50⟩
      ∧ ¬ ((SCREEN_MARGIN : ℝ)
          ≤ ((Init Real.sqrt Real.cos Real.sin randLow NUM_BIRDS (flockEdge : Birds ℝ)).pos 0).x)
      ∧ ¬ ((SCREEN_MARGIN : ℝ)
          ≤ ((Init Real.sqrt Real.cos Real.sin randLow NUM_BIRDS (flockEdge : Birds ℝ)).pos 0).y)
      ∧ turn ((Init Real.sqrt Real.cos Real.sin randLow NUM_BIRDS (flockEdge : Birds ℝ)).pos 0)
          (⟨1, 0⟩ : Vector2 ℝ) = ⟨11 / 10, 1 / 10⟩ := by
  have hp : (Init Real.sqrt Real.cos Real.sin randLow NUM_BIRDS (flockEdge : Birds ℝ)).pos 0
      = ⟨50, 50⟩ := by
    rw [Init, (initLoop_inside Real.sqrt Real.cos Real.sin randLow NUM_BIRDS 0 flockEdge 0
      (le_refl 0) (by decide)).1]
    simp [randLow]
  refine ⟨randLow_inRange, hp, ?_, ?_, ?_⟩
  · rw [hp, SCREEN_MARGIN_eq]; norm_num
  · rw [hp, SCREEN_MARGIN_eq]; norm_num
  · rw [hp, turn_eq]
    simp only [SCREEN_MARGIN_eq, screenWidth_eq, screenHeight_eq, TURN_SPEED]
    norm_num

/-- C14 as amended.  If the random source respects the contract of `GetRandomValue`,
the initial position `(x, y)` of every bird `i < n` has integer coordinates with
`50 ≤ x ≤ screenWidth - 50 = 1390` and `50 ≤ y ≤ screenHeight - 50 = 1030`: the inset
of the initial rectangle is the literal 50 of lines 94-95, not `SCREEN_MARGIN`. -/
theorem C14_initial_position_inset (sqrt cos sin : α → α) (rand : Int → Int → Nat → Int)
    (hr : RandomInRange rand) (n : Nat) (b : Birds α) (i : Nat) (hi : i < n) :
    (Init sqrt cos sin rand n b).pos i =
        ⟨((rand 50 (screenWidth - 50) (3 * i) : Int) : α),
          ((rand 50 (screenHeight - 50) (3 * i + 1) : Int) : α)⟩
      ∧ (50 : α) ≤ ((Init sqrt cos sin rand n b).pos i).x
      ∧ ((Init sqrt cos sin rand n b).pos i).x ≤ (screenWidth : α) - 50
      ∧ (50 : α) ≤ ((Init sqrt cos sin rand n b).pos i).y
      ∧ ((Init sqrt cos sin rand n b).pos i).y ≤ (screenHeight : α) - 50
      ∧ (screenWidth : α) - 50 = 1390 ∧ (screenHeight : α) - 50 = 1030 := by
  have hp := (initLoop_inside sqrt cos sin rand n 0 b i (Nat.zero_le i) (by omega)).1
  obtain ⟨hx1, hx2⟩ := hr 50 (screenWidth - 50) (3 * i) (by decide)
  obtain ⟨hy1, hy2⟩ := hr 50 (screenHeight - 50) (3 * i + 1) (by decide)
  rw [Init, hp]
  refine ⟨rfl, ?_, ?_, ?_, ?_, ?_, ?_⟩
  · show (50 : α) ≤ ((rand 50 (screenWidth - 50) (3 * i) : Int) : α)
    exact_mod_cast hx1
  · have : ((rand 50 (screenWidth - 50) (3 * i) : Int) : α) ≤ ((screenWidth - 50 : Int) : α) :=
      Int.cast_le.mpr hx2
    simpa using this
  · show (50 : α) ≤ ((rand 50 (screenHeight - 50) (3 * i + 1) : Int) : α)
    exact_mod_cast hy1
  · have : ((rand 50 (screenHeight - 50) (3 * i + 1) : Int) : α)
        ≤ ((screenHeight - 50 : Int) : α) := Int.cast_le.mpr hy2
    simpa using this
  · rw [screenWidth_eq]; norm_num
  · rw [screenHeight_eq]; norm_num

/-- Witness of the amended C14: bird 0 of 200, with the random source that returns
the lower end of every range. -/
theorem C14_initial_position_inset_witness :
    RandomInRange randLow ∧ 0 < NUM_BIRDS
      ∧ (50 : ℚ) ≤ ((Init Rat.sqrt (fun _ => 1) (fun _ => 0) randLow NUM_BIRDS
          (flockEdge : Birds ℚ)).pos 0).x :=
  ⟨randLow_inRange, by decide,
    (C14_initial_position_inset Rat.sqrt (fun _ => 1) (fun _ => 0) randLow randLow_inRange
      NUM_BIRDS flockEdge 0 (by decide)).2.1⟩


/-! ## C15, C16, C17: steering terms and radius tests -/

/-- With a zero vicinity count the scan has accumulated no position and no heading. -/
theorem scan_of_num_vicinity_zero (n : Nat) (b : Birds α) (i : Nat)
    (h : (scan n b i).num_vicinity = 0) :
    (scan n b i).mass_centre = ⟨0, 0⟩ ∧ (scan n b i).dir_mean = ⟨0, 0⟩ := by
  rw [scan_eq] at h ⊢
  simp only [List.length_eq_zero] at h
  simp only [h]
  exact ⟨rfl, rfl⟩

/-- With a zero too-close count the scan has accumulated no repulsion. -/
theorem scan_of_num_too_close_zero (n : Nat) (b : Birds α) (i : Nat)
    (h : (scan n b i).num_too_close = 0) :
    (scan n b i).repulsion = ⟨0, 0⟩ := by
  rw [scan_eq] at h ⊢
  simp only [List.length_eq_zero] at h
  simp only [h]
  rfl

/-- C15 (steering combination).  In iteration `i` of the main loop, with the
aggregates of the scan (vicinity count, position sum, heading sum, too-close count,
repulsion sum of the terms `pos[i] - pos[j]`), the heading before the boundary
correction is the heading of the start of the frame plus cohesion, alignment and
separation, where cohesion is `MASS_ATTRACTION_FACTOR * (P / n - pos[i])` and
alignment `ALIGNMENT_FACTOR * (D / n)` for a vicinity count `n > 0`, separation is
`REPULSION_FACTOR * (R / m)` for a too-close count `m > 0`, and each term is the zero
vector when its count is 0. -/
theorem C15_steering_combination (sqrt : α → α) (n : Nat) (b : Birds α) (i : Nat) :
    scan n (stateBefore sqrt n b i) i =
        { num_vicinity :=
            (within (stateBefore sqrt n b i) i VICINITY_DIST (List.range (min n i))).length
          num_too_close :=
            (within (stateBefore sqrt n b i) i TOO_CLOSE_DIST (List.range (min n i))).length
          mass_centre := Vector2Sum
            ((within (stateBefore sqrt n b i) i VICINITY_DIST (List.range (min n i))).map b.pos)
          repulsion := Vector2Sum
            ((within (stateBefore sqrt n b i) i TOO_CLOSE_DIST (List.range (min n i))).map
              (fun j => Vector2Subtract (b.pos i) (b.pos j)))
          dir_mean := Vector2Sum
            ((within (stateBefore sqrt n b i) i VICINITY_DIST (List.range (min n i))).map
              (stateBefore sqrt n b i).dir) }
      ∧ headingAfterSteer n (stateBefore sqrt n b i) i =
        Vector2Add (b.dir i)
          (Vector2Add
            (if 0 < (scan n (stateBefore sqrt n b i) i).num_vicinity then
              ⟨MASS_ATTRACTION_FACTOR
                  * ((scan n (stateBefore sqrt n b i) i).mass_centre.x
                      / ((scan n (stateBefore sqrt n b i) i).num_vicinity : α) - (b.pos i).x),
                MASS_ATTRACTION_FACTOR
                  * ((scan n (stateBefore sqrt n b i) i).mass_centre.y
                      / ((scan n (stateBefore sqrt n b i) i).num_vicinity : α) - (b.pos i).y)⟩
            else ⟨0, 0⟩)
            (Vector2Add
              (if 0 < (scan n (stateBefore sqrt n b i) i).num_vicinity then
                ⟨ALIGNMENT_FACTOR
                    * ((scan n (stateBefore sqrt n b i) i).dir_mean.x
                        / ((scan n (stateBefore sqrt n b i) i).num_vicinity : α)),
                  ALIGNMENT_FACTOR
                    * ((scan n (stateBefore sqrt n b i) i).dir_mean.y
                        / ((scan n (stateBefore sqrt n b i) i).num_vicinity : α))⟩
              else ⟨0, 0⟩)
              (if 0 < (scan n (stateBefore sqrt n b i) i).num_too_close then
                ⟨REPULSION_FACTOR
                    * ((scan n (stateBefore sqrt n b i) i).repulsion.x
                        / ((scan n (stateBefore sqrt n b i) i).num_too_close : α)),
                  REPULSION_FACTOR
                    * ((scan n (stateBefore sqrt n b i) i).repulsion.y
                        / ((scan n (stateBefore sqrt n b i) i).num_too_close : α))⟩
              else ⟨0, 0⟩)))
      ∧ ((scan n (stateBefore sqrt n b i) i).num_vicinity = 0 →
          mass_centre_dir ((stateBefore sqrt n b i).pos i) (scan n (stateBefore sqrt n b i) i)
              = ⟨0, 0⟩
            ∧ dir_mean_scaled (scan n (stateBefore sqrt n b i) i) = ⟨0, 0⟩)
      ∧ ((scan n (stateBefore sqrt n b i) i).num_too_close = 0 →
          repulsion_scaled (scan n (stateBefore sqrt n b i) i) = ⟨0, 0⟩) := by
  have hv0 : (scan n (stateBefore sqrt n b i) i).num_vicinity = 0 →
      mass_centre_dir ((stateBefore sqrt n b i).pos i) (scan n (stateBefore sqrt n b i) i)
          = ⟨0, 0⟩
        ∧ dir_mean_scaled (scan n (stateBefore sqrt n b i) i) = ⟨0, 0⟩ := by
    intro h
    have h2 := (scan_of_num_vicinity_zero n _ i h).2
    simp [mass_centre_dir, dir_mean_scaled, h, h2]
  have hc0 : (scan n (stateBefore sqrt n b i) i).num_too_close = 0 →
      repulsion_scaled (scan n (stateBefore sqrt n b i) i) = ⟨0, 0⟩ := by
    intro h
    have h2 := scan_of_num_too_close_zero n _ i h
    simp [repulsion_scaled, h, h2]
  refine ⟨?_, ?_, hv0, hc0⟩
  · have h := scan_eq n (stateBefore sqrt n b i) i
    simp only [stateBefore_pos] at h
    exact h
  · rw [headingAfterSteer, steer, stateBefore_dir_of_le sqrt n b i i le_rfl]
    congr 1
    have e1 : mass_centre_dir ((stateBefore sqrt n b i).pos i) (scan n (stateBefore sqrt n b i) i)
        = (if 0 < (scan n (stateBefore sqrt n b i) i).num_vicinity then
              ⟨MASS_ATTRACTION_FACTOR
                  * ((scan n (stateBefore sqrt n b i) i).mass_centre.x
                      / ((scan n (stateBefore sqrt n b i) i).num_vicinity : α) - (b.pos i).x),
                MASS_ATTRACTION_FACTOR
                  * ((scan n (stateBefore sqrt n b i) i).mass_centre.y
                      / ((scan n (stateBefore sqrt n b i) i).num_vicinity : α) - (b.pos i).y)⟩
            else ⟨0, 0⟩) := by
      rw [stateBefore_pos]
      simp only [mass_centre_dir, gt_iff_lt, Vector2Scale, Vector2Subtract]
      split_ifs
      · simp only [Vector2.mk.injEq]; constructor <;> ring
      · rfl
    have e2 : dir_mean_scaled (scan n (stateBefore sqrt n b i) i)
        = (if 0 < (scan n (stateBefore sqrt n b i) i).num_vicinity then
                ⟨ALIGNMENT_FACTOR
                    * ((scan n (stateBefore sqrt n b i) i).dir_mean.x
                        / ((scan n (stateBefore sqrt n b i) i).num_vicinity : α)),
                  ALIGNMENT_FACTOR
                    * ((scan n (stateBefore sqrt n b i) i).dir_mean.y
                        / ((scan n (stateBefore sqrt n b i) i).num_vicinity : α))⟩
              else ⟨0, 0⟩) := by
      by_cases h : 0 < (scan n (stateBefore sqrt n b i) i).num_vicinity
      · simp only [dir_mean_scaled, gt_iff_lt, Vector2Scale, if_pos h, Vector2.mk.injEq]
        constructor <;> ring
      · rw [if_neg h]
        exact (hv0 (by omega)).2
    have e3 : repulsion_scaled (scan n (stateBefore sqrt n b i) i)
        = (if 0 < (scan n (stateBefore sqrt n b i) i).num_too_close then
                ⟨REPULSION_FACTOR
                    * ((scan n (stateBefore sqrt n b i) i).repulsion.x
                        / ((scan n (stateBefore sqrt n b i) i).num_too_close : α)),
                  REPULSION_FACTOR
                    * ((scan n (stateBefore sqrt n b i) i).repulsion.y
                        / ((scan n (stateBefore sqrt n b i) i).num_too_close : α))⟩
              else ⟨0, 0⟩) := by
      by_cases h : 0 < (scan n (stateBefore sqrt n b i) i).num_too_close
      · simp only [repulsion_scaled, gt_iff_lt, Vector2Scale, if_pos h, Vector2.mk.injEq]
        constructor <;> ring
      · rw [if_neg h]
        exact hc0 (by omega)
    rw [e1, e2, e3]

/-- Over the reals, `CheckCollisionPointCircle` with a radius that is not negative
holds exactly when the distance between point and centre is at most the radius. -/
theorem CheckCollisionPointCircle_iff (p c : Vector2 ℝ) (r : ℝ) (hr : 0 ≤ r) :
    CheckCollisionPointCircle p c r = true
      ↔ Vector2Length Real.sqrt (Vector2Subtract p c) ≤ r := by
  simp only [CheckCollisionPointCircle, decide_eq_true_eq, Vector2Length, Vector2Subtract]
  rw [Real.sqrt_le_iff]
  constructor
  · intro h; exact ⟨hr, by rw [sq]; exact h⟩
  · intro h; have := h.2; rw [sq] at this; exact this

theorem flockRim_scan_one :
    scan NUM_BIRDS (stateBefore Real.sqrt NUM_BIRDS (flockRim : Birds ℝ) 1) 1
      = scanPair (stateBefore Real.sqrt NUM_BIRDS (flockRim : Birds ℝ) 1) 1 0 Aggregates.zero :=
  scan_index_one _ _ (by decide)

/-- Counterexample to C16 as stated.  In the flock `flockRim` of 200 birds, bird 0 is
at distance exactly 200 from bird 1 and bird 1 at distance exactly 15 from bird 2.
Neither distance is below the radius, yet the scan of bird 1 counts bird 0 in its
vicinity set, and the pair body for `(2, 1)` counts bird 1 as too close. -/
theorem C16_counterexample :
    Vector2Length Real.sqrt
        (Vector2Subtract ((flockRim : Birds ℝ).pos 0) ((flockRim : Birds ℝ).pos 1)) = 200
      ∧ ¬ (Vector2Length Real.sqrt
        (Vector2Subtract ((flockRim : Birds ℝ).pos 0) ((flockRim : Birds ℝ).pos 1))
          < (VICINITY_DIST : ℝ))
      ∧ (scan NUM_BIRDS (stateBefore Real.sqrt NUM_BIRDS (flockRim : Birds ℝ) 1) 1).num_vicinity
          = 1
      ∧ (scan NUM_BIRDS (stateBefore Real.sqrt NUM_BIRDS (flockRim : Birds ℝ) 1) 1).mass_centre
          = (flockRim : Birds ℝ).pos 0
      ∧ Vector2Length Real.sqrt
        (Vector2Subtract ((flockRim : Birds ℝ).pos 1) ((flockRim : Birds ℝ).pos 2)) = 15
      ∧ ¬ (Vector2Length Real.sqrt
        (Vector2Subtract ((flockRim : Birds ℝ).pos 1) ((flockRim : Birds ℝ).pos 2))
          < (TOO_CLOSE_DIST : ℝ))
      ∧ (scanPair (stateBefore Real.sqrt NUM_BIRDS (flockRim : Birds ℝ) 2) 2 1
          Aggregates.zero).num_too_close = 1 := by
  have h200 : Vector2Length Real.sqrt
      (Vector2Subtract ((flockRim : Birds ℝ).pos 0) ((flockRim : Birds ℝ).pos 1)) = 200 := by
    simp only [flockRim, Vector2Subtract]
    norm_num [Vector2Length_x_axis]
  have h15 : Vector2Length Real.sqrt
      (Vector2Subtract ((flockRim : Birds ℝ).pos 1) ((flockRim : Birds ℝ).pos 2)) = 15 := by
    simp only [flockRim, Vector2Subtract]
    norm_num [Vector2Length_x_axis]
  refine ⟨h200, ?_, ?_, ?_, h15, ?_, ?_⟩
  · rw [h200, VICINITY_DIST_eq]; norm_num
  · rw [flockRim_scan_one]
    simp only [scanPair, stateBefore_pos, flockRim, CheckCollisionPointCircle,
      VICINITY_DIST_eq, TOO_CLOSE_DIST_eq, Aggregates.zero]
    norm_num
  · rw [flockRim_scan_one]
    simp only [scanPair, stateBefore_pos, flockRim, CheckCollisionPointCircle,
      VICINITY_DIST_eq, TOO_CLOSE_DIST_eq, Aggregates.zero, Vector2Add]
    norm_num
  · rw [h15, TOO_CLOSE_DIST_eq]; norm_num
  · simp only [scanPair, stateBefore_pos, flockRim, CheckCollisionPointCircle,
      VICINITY_DIST_eq, TOO_CLOSE_DIST_eq, Aggregates.zero]
    norm_num

/-- C16 as amended (exact real arithmetic).  The thresholds are inclusive: for every
pair `(i, j)`, the pair body adds `j` to the vicinity aggregates of `i` exactly when
the distance between `pos[i]` and `pos[j]` is at most `VICINITY_DIST = 200`, and to
the too-close aggregates exactly when it is at most `TOO_CLOSE_DIST = 15`; a bird at
distance exactly equal to the radius is included.  Accordingly the vicinity and
too-close sets of the scan of `i` are the examined indices that pass these tests. -/
theorem C16_inclusive_thresholds (n : Nat) (b : Birds ℝ) (i j : Nat) (a : Aggregates ℝ) :
    ((VICINITY_DIST : ℝ) = 200 ∧ (TOO_CLOSE_DIST : ℝ) = 15)
      ∧ ((scanPair b i j a).num_vicinity = a.num_vicinity + 1
          ↔ Vector2Length Real.sqrt (Vector2Subtract (b.pos j) (b.pos i)) ≤ (VICINITY_DIST : ℝ))
      ∧ ((scanPair b i j a).num_vicinity = a.num_vicinity
          ↔ ¬ Vector2Length Real.sqrt (Vector2Subtract (b.pos j) (b.pos i))
              ≤ (VICINITY_DIST : ℝ))
      ∧ ((scanPair b i j a).num_too_close = a.num_too_close + 1
          ↔ Vector2Length Real.sqrt (Vector2Subtract (b.pos j) (b.pos i))
              ≤ (TOO_CLOSE_DIST : ℝ))
      ∧ ((scanPair b i j a).num_too_close = a.num_too_close
          ↔ ¬ Vector2Length Real.sqrt (Vector2Subtract (b.pos j) (b.pos i))
              ≤ (TOO_CLOSE_DIST : ℝ))
      ∧ (j ∈ within b i VICINITY_DIST (List.range (min n i))
          ↔ j < min n i
            ∧ Vector2Length Real.sqrt (Vector2Subtract (b.pos j) (b.pos i))
              ≤ (VICINITY_DIST : ℝ))
      ∧ (j ∈ within b i TOO_CLOSE_DIST (List.range (min n i))
          ↔ j < min n i
            ∧ Vector2Length Real.sqrt (Vector2Subtract (b.pos j) (b.pos i))
              ≤ (TOO_CLOSE_DIST : ℝ))
      ∧ (scan n b i).num_vicinity = (within b i VICINITY_DIST (List.range (min n i))).length
      ∧ (scan n b i).num_too_close
          = (within b i TOO_CLOSE_DIST (List.range (min n i))).length := by
  have hV : (0 : ℝ) ≤ (VICINITY_DIST : ℝ) := by rw [VICINITY_DIST_eq]; norm_num
  have hC : (0 : ℝ) ≤ (TOO_CLOSE_DIST : ℝ) := by rw [TOO_CLOSE_DIST_eq]; norm_num
  have iV := CheckCollisionPointCircle_iff (b.pos j) (b.pos i) _ hV
  have iC := CheckCollisionPointCircle_iff (b.pos j) (b.pos i) _ hC
  refine ⟨⟨by rw [VICINITY_DIST_eq]; norm_num, by rw [TOO_CLOSE_DIST_eq]; norm_num⟩,
    ?_, ?_, ?_, ?_, ?_, ?_, ?_, ?_⟩
  · rw [← iV]
    cases hv : CheckCollisionPointCircle (b.pos j) (b.pos i) (VICINITY_DIST : ℝ) <;>
    cases hc : CheckCollisionPointCircle (b.pos j) (b.pos i) (TOO_CLOSE_DIST : ℝ) <;>
    simp [scanPair, hv, hc]
  · rw [← iV]
    cases hv : CheckCollisionPointCircle (b.pos j) (b.pos i) (VICINITY_DIST : ℝ) <;>
    cases hc : CheckCollisionPointCircle (b.pos j) (b.pos i) (TOO_CLOSE_DIST : ℝ) <;>
    simp [scanPair, hv, hc]
  · rw [← iC]
    cases hv : CheckCollisionPointCircle (b.pos j) (b.pos i) (VICINITY_DIST : ℝ) <;>
    cases hc : CheckCollisionPointCircle (b.pos j) (b.pos i) (TOO_CLOSE_DIST : ℝ) <;>
    simp [scanPair, hv, hc]
  · rw [← iC]
    cases hv : CheckCollisionPointCircle (b.pos j) (b.pos i) (VICINITY_DIST : ℝ) <;>
    cases hc : CheckCollisionPointCircle (b.pos j) (b.pos i) (TOO_CLOSE_DIST : ℝ) <;>
    simp [scanPair, hv, hc]
  · rw [← iV, within, List.mem_filter, List.mem_range]
  · rw [← iC, within, List.mem_filter, List.mem_range]
  · rw [scan_eq]
  · rw [scan_eq]

/-- C17 (too close implies vicinity).  With `TOO_CLOSE_DIST = 15` and
`VICINITY_DIST = 200`, every bird in the too-close set of the scan of bird `i` is in
its vicinity set, so `num_too_close[i] ≤ num_vicinity[i]` after the scan, and with a
zero vicinity count the separation term is the zero vector. -/
theorem C17_too_close_within_vicinity (n : Nat) (b : Birds α) (i : Nat) :
    (TOO_CLOSE_DIST = 15 ∧ VICINITY_DIST = 200)
      ∧ (∀ j, j ∈ within b i TOO_CLOSE_DIST (List.range (min n i)) →
          j ∈ within b i VICINITY_DIST (List.range (min n i)))
      ∧ (scan n b i).num_vicinity = (within b i VICINITY_DIST (List.range (min n i))).length
      ∧ (scan n b i).num_too_close = (within b i TOO_CLOSE_DIST (List.range (min n i))).length
      ∧ (scan n b i).num_too_close ≤ (scan n b i).num_vicinity
      ∧ ((scan n b i).num_vicinity = 0 →
          (scan n b i).num_too_close = 0 ∧ repulsion_scaled (scan n b i) = ⟨0, 0⟩) := by
  have hsub : ∀ j, j ∈ within b i TOO_CLOSE_DIST (List.range (min n i)) →
      j ∈ within b i VICINITY_DIST (List.range (min n i)) := by
    intro j hj
    rw [within, List.mem_filter] at hj ⊢
    exact ⟨hj.1, vicinity_of_too_close _ _ hj.2⟩
  have hle : (scan n b i).num_too_close ≤ (scan n b i).num_vicinity := by
    rw [scan_eq]
    exact (List.monotone_filter_right (List.range (min n i))
      (fun j hj => vicinity_of_too_close _ _ hj)).length_le
  refine ⟨⟨TOO_CLOSE_DIST_eq, VICINITY_DIST_eq⟩, hsub, by rw [scan_eq], by rw [scan_eq], hle, ?_⟩
  intro h0
  have hc : (scan n b i).num_too_close = 0 := by omega
  refine ⟨hc, ?_⟩
  have h2 := scan_of_num_too_close_zero n b i hc
  simp [repulsion_scaled, hc, h2]


/-! ## C19: the unconditional bound -/

/-- The clamp to `[1, 3]` of any real vector has length at most 3. -/
theorem Vector2ClampValue_length_le (v : Vector2 ℝ) :
    Vector2Length Real.sqrt (Vector2ClampValue Real.sqrt v 1 3) ≤ 3 := by
  by_cases h : v = ⟨0, 0⟩
  · rw [h, Vector2ClampValue_zero]
    simp [Vector2Length]
  · exact (Vector2ClampValue_length v h).2

/-- C19 as amended (unconditional upper bound in exact real arithmetic).  For every flock, with
no assumption on headings or positions, after one frame the heading of every bird
`i < n` has length at most 3, and its position is at distance at most `2 * 3 = 6`
from its position of the start of the frame. -/
theorem C19_upper_bound (n : Nat) (b : Birds ℝ) (i : Nat) (hi : i < n) :
    Vector2Length Real.sqrt ((Step Real.sqrt n b).dir i) ≤ 3
      ∧ Vector2Length Real.sqrt (Vector2Subtract ((Step Real.sqrt n b).pos i) (b.pos i))
          = 2 * Vector2Length Real.sqrt ((Step Real.sqrt n b).dir i)
      ∧ Vector2Length Real.sqrt (Vector2Subtract ((Step Real.sqrt n b).pos i) (b.pos i))
          ≤ 6 := by
  have h1 : Vector2Length Real.sqrt ((Step Real.sqrt n b).dir i) ≤ 3 := by
    rw [Step_dir_eq _ _ _ i hi]
    exact Vector2ClampValue_length_le _
  have h2 : Vector2Length Real.sqrt (Vector2Subtract ((Step Real.sqrt n b).pos i) (b.pos i))
      = 2 * Vector2Length Real.sqrt ((Step Real.sqrt n b).dir i) := by
    rw [Step_pos_eq _ _ _ i hi]
    generalize (Step Real.sqrt n b).dir i = d
    simp only [Vector2Length, Vector2Subtract, Vector2Add, Vector2Scale]
    have e : ((b.pos i).x + d.x * 2 - (b.pos i).x) * ((b.pos i).x + d.x * 2 - (b.pos i).x)
        + ((b.pos i).y + d.y * 2 - (b.pos i).y) * ((b.pos i).y + d.y * 2 - (b.pos i).y)
        = 2 * 2 * (d.x * d.x + d.y * d.y) := by ring
    rw [e, Real.sqrt_mul (by norm_num), Real.sqrt_mul_self (by norm_num)]
  refine ⟨h1, h2, ?_⟩
  rw [h2]
  linarith

/-- Witness of C19: bird 1 of the 200 birds of `flockTwin`, which moves by
`2 * 21/20`. -/
theorem C19_upper_bound_witness :
    1 < NUM_BIRDS
      ∧ Vector2Length Real.sqrt
          (Vector2Subtract ((Step Real.sqrt NUM_BIRDS (flockTwin : Birds ℝ)).pos 1)
            ((flockTwin : Birds ℝ).pos 1)) ≤ 6 :=
  ⟨by decide, (C19_upper_bound NUM_BIRDS flockTwin 1 (by decide)).2.2⟩

end Loops

/-! ## The program in binary32 arithmetic -/

section Binary32

set_option maxRecDepth 100000

theorem toRat_fin_pos (m : Nat) (e : Int) :
    F32.toRat (F32.fin false m e) = (m : ℚ) * (2 : ℚ) ^ e := by
  simp [F32.toRat]

/-- The triangle of `GetTriangle` at position `(0, 0)` and heading `(3, 4)` in binary32
arithmetic: `p1 = (15728641 / 2^20, 20)`, `p2 = (8, -6)`, `p3 = (-8, 6)`. -/
theorem GetTriangle_binary32_three_four :
    GetTriangle F32.sqrt (⟨0, 0⟩ : Vector2 F32) ⟨3, 4⟩ =
      { p1 := ⟨F32.fin false 15728641 (-20), F32.fin false 10485760 (-19)⟩
        p2 := ⟨F32.fin false 8388608 (-20), F32.fin true 12582912 (-21)⟩
        p3 := ⟨F32.fin true 8388608 (-20), F32.fin false 12582912 (-21)⟩ } := by
  decide

/-- Counterexample to C10 as stated.  In binary32 arithmetic, at position `(0, 0)`
and heading `(3, 4)` (so `u = (3/5, 4/5)` and `p + 25 u = (15, 20)`), `GetTriangle`
returns the apex `p1 = (15728641 / 2^20, 20) = (15.00000095..., 20)`: the rounded
`1/5` times 3 times 25 is not 15.  The offset `p1 - p` is not a multiple of `(3, 4)`
and its length is not 25. -/
theorem C10_counterexample :
    (⟨3, 4⟩ : Vector2 F32) ≠ ⟨0, 0⟩
      ∧ (GetTriangle F32.sqrt (⟨0, 0⟩ : Vector2 F32) ⟨3, 4⟩).p1
          = ⟨F32.fin false 15728641 (-20), F32.fin false 10485760 (-19)⟩
      ∧ (GetTriangle F32.sqrt (⟨0, 0⟩ : Vector2 F32) ⟨3, 4⟩).p1 ≠ ⟨15, 20⟩
      ∧ Vector2Subtract (GetTriangle F32.sqrt (⟨0, 0⟩ : Vector2 F32) ⟨3, 4⟩).p1 ⟨0, 0⟩
          = ⟨F32.fin false 15728641 (-20), F32.fin false 10485760 (-19)⟩
      ∧ F32.toRat (F32.fin false 15728641 (-20)) = 15728641 / 1048576
      ∧ F32.toRat (F32.fin false 10485760 (-19)) = 20
      ∧ (¬ ∃ c : ℚ, 0 < c ∧ F32.toRat (F32.fin false 15728641 (-20)) = c * 3
          ∧ F32.toRat (F32.fin false 10485760 (-19)) = c * 4)
      ∧ F32.toRat (F32.fin false 15728641 (-20)) ^ 2
          + F32.toRat (F32.fin false 10485760 (-19)) ^ 2 ≠ 25 ^ 2 := by
  have hx : F32.toRat (F32.fin false 15728641 (-20)) = 15728641 / 1048576 := by
    rw [toRat_fin_pos]; norm_num
  have hy : F32.toRat (F32.fin false 10485760 (-19)) = 20 := by
    rw [toRat_fin_pos]; norm_num
  refine ⟨by decide, by decide, by decide, by decide, hx, hy, ?_, ?_⟩
  · rintro ⟨c, _, h1, h2⟩
    rw [hx] at h1
    rw [hy] at h2
    have hc : c = 5 := by linarith
    rw [hc] at h1
    norm_num at h1
  · rw [hx, hy]; norm_num

/-- The triangle of `GetTriangle` at position `(500, 500)` and heading `(1, 3)` in
binary32 arithmetic. -/
theorem GetTriangle_binary32_one_three :
    GetTriangle F32.sqrt (⟨500, 500⟩ : Vector2 F32) ⟨1, 3⟩ =
      { p1 := ⟨F32.fin false 16643054 (-15), F32.fin false 8580581 (-14)⟩
        p2 := ⟨F32.fin false 16694865 (-15), F32.fin false 16280378 (-15)⟩
        p3 := ⟨F32.fin false 16073135 (-15), F32.fin false 16487622 (-15)⟩ } := by
  decide

/-- Counterexample to C12 as stated.  In binary32 arithmetic, at position
`(500, 500)` and heading `(1, 3)`, the apex of the triangle of `GetTriangle` is not
at the same distance from the two base vertices: the squares of the two distances
are `778464834377 / 2^30 = 725.00187...` and `778463798161 / 2^30 = 725.00090...`,
neither is `25^2 + 10^2 = 725`, and `Vector2Length` of the two differences returns
two different values, `26.925857...` and `26.925840...`. -/
theorem C12_counterexample :
    (⟨1, 3⟩ : Vector2 F32) ≠ ⟨0, 0⟩
      ∧ GetTriangle F32.sqrt (⟨500, 500⟩ : Vector2 F32) ⟨1, 3⟩ =
        { p1 := ⟨F32.fin false 16643054 (-15), F32.fin false 8580581 (-14)⟩
          p2 := ⟨F32.fin false 16694865 (-15), F32.fin false 16280378 (-15)⟩
          p3 := ⟨F32.fin false 16073135 (-15), F32.fin false 16487622 (-15)⟩ }
      ∧ (F32.toRat (F32.fin false 16643054 (-15)) - F32.toRat (F32.fin false 16694865 (-15))) ^ 2
          + (F32.toRat (F32.fin false 8580581 (-14))
              - F32.toRat (F32.fin false 16280378 (-15))) ^ 2
          = 778464834377 / 1073741824
      ∧ (F32.toRat (F32.fin false 16643054 (-15)) - F32.toRat (F32.fin false 16073135 (-15))) ^ 2
          + (F32.toRat (F32.fin false 8580581 (-14))
              - F32.toRat (F32.fin false 16487622 (-15))) ^ 2
          = 778463798161 / 1073741824
      ∧ (778464834377 / 1073741824 : ℚ) ≠ 778463798161 / 1073741824
      ∧ (778464834377 / 1073741824 : ℚ) ≠ 25 ^ 2 + 10 ^ 2
      ∧ (778463798161 / 1073741824 : ℚ) ≠ 25 ^ 2 + 10 ^ 2
      ∧ Vector2Length F32.sqrt
          (Vector2Subtract (GetTriangle F32.sqrt (⟨500, 500⟩ : Vector2 F32) ⟨1, 3⟩).p1
            (GetTriangle F32.sqrt (⟨500, 500⟩ : Vector2 F32) ⟨1, 3⟩).p2)
          = F32.fin false 14116904 (-19)
      ∧ Vector2Length F32.sqrt
          (Vector2Subtract (GetTriangle F32.sqrt (⟨500, 500⟩ : Vector2 F32) ⟨1, 3⟩).p1
            (GetTriangle F32.sqrt (⟨500, 500⟩ : Vector2 F32) ⟨1, 3⟩).p3)
          = F32.fin false 14116895 (-19) := by
  refine ⟨by decide, GetTriangle_binary32_one_three, ?_, ?_, by norm_num, by norm_num,
    by norm_num, by decide, by decide⟩
  · simp only [toRat_fin_pos]; norm_num
  · simp only [toRat_fin_pos]; norm_num

theorem exp_I_series :
    (∑ m ∈ Finset.range 14, Complex.I ^ m / (m.factorial : ℂ))
      = ((258805669 / 479001600 : ℝ) : ℂ) + ((209594293 / 249080832 : ℝ) : ℂ) * Complex.I := by
  simp only [Finset.sum_range_succ, Finset.sum_range_zero, Nat.factorial]
  apply Complex.ext
  · simp [pow_succ, Complex.div_re, Complex.mul_re]
    norm_num
  · simp [pow_succ, Complex.div_im, Complex.mul_im]
    norm_num

/-- The partial sums of order 14 of the series of `cos` and `sin` at 1, with the
bound of the remainder. -/
theorem cos_sin_one_near :
    |Real.cos 1 - 258805669 / 479001600| ≤ 15 / (87178291200 * 14)
      ∧ |Real.sin 1 - 209594293 / 249080832| ≤ 15 / (87178291200 * 14) := by
  have h := Complex.exp_bound (x := Complex.I) (by simp) (n := 14) (by norm_num)
  rw [exp_I_series] at h
  have hb : Complex.abs Complex.I ^ 14
      * (((Nat.succ 14 : ℕ) : ℝ) * ((Nat.factorial 14 : ℝ) * (14 : ℕ))⁻¹)
      = 15 / (87178291200 * 14) := by
    simp [Nat.factorial]
    norm_num
  rw [hb] at h
  have hre : (Complex.exp Complex.I).re = Real.cos 1 := by
    have := Complex.exp_ofReal_mul_I_re 1
    simpa using this
  have him : (Complex.exp Complex.I).im = Real.sin 1 := by
    have := Complex.exp_ofReal_mul_I_im 1
    simpa using this
  constructor
  · have h1 := Complex.abs_re_le_abs (Complex.exp Complex.I
      - (((258805669 / 479001600 : ℝ) : ℂ) + ((209594293 / 249080832 : ℝ) : ℂ) * Complex.I))
    have h2 : (Complex.exp Complex.I
      - (((258805669 / 479001600 : ℝ) : ℂ) + ((209594293 / 249080832 : ℝ) : ℂ) * Complex.I)).re
        = Real.cos 1 - 258805669 / 479001600 := by
      simp [hre]
    rw [h2] at h1
    exact le_trans h1 h
  · have h1 := Complex.abs_im_le_abs (Complex.exp Complex.I
      - (((258805669 / 479001600 : ℝ) : ℂ) + ((209594293 / 249080832 : ℝ) : ℂ) * Complex.I))
    have h2 : (Complex.exp Complex.I
      - (((258805669 / 479001600 : ℝ) : ℂ) + ((209594293 / 249080832 : ℝ) : ℂ) * Complex.I)).im
        = Real.sin 1 - 209594293 / 249080832 := by
      simp [him]
    rw [h2] at h1
    exact le_trans h1 h

/-- The tabulated values of `cosfAtOne` and `sinfAtOne` at 1 are the binary32 values
nearest to `cos 1` and `sin 1`: both lie in `[1/2, 1)`, where binary32 values are
`2^-24` apart, and the tabulated values are within less than `2^-25` of them. -/
theorem cosfAtOne_sinfAtOne_nearest :
    cosfAtOne 1 = F32.fin false 9064768 (-24)
      ∧ sinfAtOne 1 = F32.fin false 14117540 (-24)
      ∧ |Real.cos 1 - ((F32.toRat (cosfAtOne 1) : ℚ) : ℝ)| < 1 / 2 ^ 25
      ∧ |Real.sin 1 - ((F32.toRat (sinfAtOne 1) : ℚ) : ℝ)| < 1 / 2 ^ 25 := by
  have hc1 : cosfAtOne 1 = F32.fin false 9064768 (-24) := by decide
  have hs1 : sinfAtOne 1 = F32.fin false 14117540 (-24) := by decide
  have hc2 : ((F32.toRat (cosfAtOne 1) : ℚ) : ℝ) = 9064768 / 2 ^ 24 := by
    rw [hc1, toRat_fin_pos]; push_cast; norm_num
  have hs2 : ((F32.toRat (sinfAtOne 1) : ℚ) : ℝ) = 14117540 / 2 ^ 24 := by
    rw [hs1, toRat_fin_pos]; push_cast; norm_num
  obtain ⟨hc, hs⟩ := cos_sin_one_near
  rw [abs_le] at hc hs
  refine ⟨hc1, hs1, ?_, ?_⟩
  · rw [hc2, abs_lt]; constructor <;> norm_num at hc ⊢ <;> linarith [hc.1, hc.2]
  · rw [hs2, abs_lt]; constructor <;> norm_num at hs ⊢ <;> linarith [hs.1, hs.2]

theorem randAngleOne_inRange : RandomInRange randAngleOne := by
  intro lo hi k h
  unfold randAngleOne
  split_ifs with h1
  · omega
  · exact ⟨le_refl lo, h⟩

/-- Counterexample to C13 as stated.  The random source `randAngleOne` respects the
contract of `GetRandomValue` and draws the angle 1 for bird 0.  With the values of
`cosf` and `sinf` at 1 (the binary32 values nearest to `cos 1` and `sin 1`, see
`cosfAtOne_sinfAtOne_nearest`), the initial heading in binary32 arithmetic is
`(9064768 / 2^24, 14117540 / 2^24)`; the sum of the squares of its components is
below 1, and `Vector2Length` returns `16777215 / 2^24 = 0.99999994...`, which is
below `MIN_SPEED = 1`. -/
theorem C13_counterexample :
    RandomInRange randAngleOne
      ∧ randAngleOne 0 359 2 = 1
      ∧ (Init F32.sqrt cosfAtOne sinfAtOne randAngleOne NUM_BIRDS (flockEdge : Birds F32)).dir 0
          = ⟨F32.fin false 9064768 (-24), F32.fin false 14117540 (-24)⟩
      ∧ Vector2Length F32.sqrt
          ((Init F32.sqrt cosfAtOne sinfAtOne randAngleOne NUM_BIRDS (flockEdge : Birds F32)).dir 0)
          = F32.fin false 16777215 (-24)
      ∧ ¬ ((1 : F32) ≤ Vector2Length F32.sqrt
          ((Init F32.sqrt cosfAtOne sinfAtOne randAngleOne NUM_BIRDS
            (flockEdge : Birds F32)).dir 0))
      ∧ F32.toRat (F32.fin false 16777215 (-24)) < 1
      ∧ F32.toRat (F32.fin false 9064768 (-24)) ^ 2
          + F32.toRat (F32.fin false 14117540 (-24)) ^ 2 < 1 := by
  have hd : (Init F32.sqrt cosfAtOne sinfAtOne randAngleOne NUM_BIRDS
      (flockEdge : Birds F32)).dir 0
        = ⟨F32.fin false 9064768 (-24), F32.fin false 14117540 (-24)⟩ := by
    rw [Init, (initLoop_inside F32.sqrt cosfAtOne sinfAtOne randAngleOne NUM_BIRDS 0 flockEdge 0
      (le_refl 0) (by decide)).2.1]
    decide
  refine ⟨randAngleOne_inRange, by decide, hd, ?_, ?_, ?_, ?_⟩
  · rw [hd]; decide
  · rw [hd]; decide
  · rw [toRat_fin_pos]; norm_num
  · simp only [toRat_fin_pos]; norm_num

/-- The heading of bird 0 of `flockFast` after one frame in binary32 arithmetic. -/
theorem flockFast_binary32_dir :
    (Step F32.sqrt NUM_BIRDS (flockFast : Birds F32)).dir 0
      = ⟨F32.fin false 13959488 (-23), F32.fin false 10469616 (-22)⟩ := by
  rw [Step_dir_eq _ _ _ 0 (by decide), stateBefore_zero, headingBeforeClamp_zero_raw]
  decide

/-- The position of bird 0 of `flockFast` after one frame in binary32 arithmetic. -/
theorem flockFast_binary32_pos :
    (Step F32.sqrt NUM_BIRDS (flockFast : Birds F32)).pos 0
      = ⟨F32.fin false 8606725 (-16), F32.fin false 8715784 (-16)⟩ := by
  rw [Step_pos_eq _ _ _ 0 (by decide), flockFast_binary32_dir]
  decide

/-- Counterexample to C19 as stated.  In binary32 arithmetic, bird 0 of `flockFast`,
at the interior position `(128, 128)` with heading `(2, 3)`, has after one frame the
heading `(13959488 / 2^23, 10469616 / 2^22) = (1.6641006..., 2.4961509...)`: the
sum of the squares of its components is above 9 and `Vector2Length` returns
`12582913 / 2^22 = 3.0000002...`, above `MAX_SPEED = 3`.  Its position has moved
to `(8606725 / 2^16, 8715784 / 2^16)`, at a distance above 6 from `(128, 128)`. -/
theorem C19_counterexample :
    (Step F32.sqrt NUM_BIRDS (flockFast : Birds F32)).dir 0
        = ⟨F32.fin false 13959488 (-23), F32.fin false 10469616 (-22)⟩
      ∧ Vector2Length F32.sqrt ((Step F32.sqrt NUM_BIRDS (flockFast : Birds F32)).dir 0)
          = F32.fin false 12582913 (-22)
      ∧ ¬ (Vector2Length F32.sqrt ((Step F32.sqrt NUM_BIRDS (flockFast : Birds F32)).dir 0)
          ≤ (3 : F32))
      ∧ (3 : ℚ) ^ 2 < F32.toRat (F32.fin false 13959488 (-23)) ^ 2
          + F32.toRat (F32.fin false 10469616 (-22)) ^ 2
      ∧ (flockFast : Birds F32).pos 0 = ⟨128, 128⟩
      ∧ (Step F32.sqrt NUM_BIRDS (flockFast : Birds F32)).pos 0
          = ⟨F32.fin false 8606725 (-16), F32.fin false 8715784 (-16)⟩
      ∧ (6 : ℚ) ^ 2 < (F32.toRat (F32.fin false 8606725 (-16)) - 128) ^ 2
          + (F32.toRat (F32.fin false 8715784 (-16)) - 128) ^ 2
      ∧ ¬ (Vector2Length F32.sqrt
          (Vector2Subtract ((Step F32.sqrt NUM_BIRDS (flockFast : Birds F32)).pos 0)
            ((flockFast : Birds F32).pos 0)) ≤ (6 : F32)) := by
  refine ⟨flockFast_binary32_dir, ?_, ?_, ?_, rfl, flockFast_binary32_pos, ?_, ?_⟩
  · rw [flockFast_binary32_dir]; decide
  · rw [flockFast_binary32_dir]; decide
  · simp only [toRat_fin_pos]; norm_num
  · simp only [toRat_fin_pos]; norm_num
  · rw [flockFast_binary32_pos]; decide

/-- The heading of bird 1 of `flockCancel` after one frame in binary32 arithmetic. -/
theorem flockCancel_binary32_dir :
    (Step F32.sqrt NUM_BIRDS (flockCancel : Birds F32)).dir 1 = ⟨0, 0⟩ := by
  rw [Step_dir_eq _ _ _ 1 (by decide), headingBeforeClamp_one_raw _ _ _ (by decide)]
  decide

theorem flockCancel_binary32_lengths (i : Nat) :
    (1 : F32) ≤ Vector2Length F32.sqrt ((flockCancel : Birds F32).dir i)
      ∧ Vector2Length F32.sqrt ((flockCancel : Birds F32).dir i) ≤ (3 : F32) := by
  by_cases h : i = 1
  · subst h; decide
  · simp only [flockCancel, if_neg h]; decide

/-- C11 (no zero divisor in `GetTriangle`) fails on the program.  Every heading of
the 200 birds of `flockCancel` has length in `[1, 3]`, in exact real arithmetic and
in binary32 arithmetic, yet in both the steering terms of bird 1 cancel its heading
and the clamp leaves `(0, 0)`: `StepPosition` passes that heading to `GetTriangle`,
whose divisor `Vector2Length(dir)` is `0`.  In binary32 arithmetic the three vertices
of the triangle of bird 1 are NaN. -/
theorem C11_zero_divisor_in_GetTriangle :
    ((∀ i, i < NUM_BIRDS →
        1 ≤ Vector2Length Real.sqrt ((flockCancel : Birds ℝ).dir i)
          ∧ Vector2Length Real.sqrt ((flockCancel : Birds ℝ).dir i) ≤ 3)
      ∧ (steerLoop Real.sqrt NUM_BIRDS NUM_BIRDS 0 (flockCancel : Birds ℝ)).dir 1 = ⟨0, 0⟩
      ∧ (Step Real.sqrt NUM_BIRDS (flockCancel : Birds ℝ)).triangle 1 =
          GetTriangle Real.sqrt ((Step Real.sqrt NUM_BIRDS (flockCancel : Birds ℝ)).pos 1) ⟨0, 0⟩
      ∧ Vector2Length Real.sqrt
          ((steerLoop Real.sqrt NUM_BIRDS NUM_BIRDS 0 (flockCancel : Birds ℝ)).dir 1) = 0)
      ∧ (∀ i, i < NUM_BIRDS →
        (1 : F32) ≤ Vector2Length F32.sqrt ((flockCancel : Birds F32).dir i)
          ∧ Vector2Length F32.sqrt ((flockCancel : Birds F32).dir i) ≤ (3 : F32))
      ∧ (steerLoop F32.sqrt NUM_BIRDS NUM_BIRDS 0 (flockCancel : Birds F32)).dir 1 = ⟨0, 0⟩
      ∧ Vector2Length F32.sqrt
          ((steerLoop F32.sqrt NUM_BIRDS NUM_BIRDS 0 (flockCancel : Birds F32)).dir 1) = 0
      ∧ (1 : F32) / Vector2Length F32.sqrt
          ((steerLoop F32.sqrt NUM_BIRDS NUM_BIRDS 0 (flockCancel : Birds F32)).dir 1)
          = F32.inf false
      ∧ (Step F32.sqrt NUM_BIRDS (flockCancel : Birds F32)).triangle 1 =
          GetTriangle F32.sqrt ((Step F32.sqrt NUM_BIRDS (flockCancel : Birds F32)).pos 1)
            ((steerLoop F32.sqrt NUM_BIRDS NUM_BIRDS 0 (flockCancel : Birds F32)).dir 1)
      ∧ (Step F32.sqrt NUM_BIRDS (flockCancel : Birds F32)).triangle 1 =
          { p1 := ⟨F32.nan, F32.nan⟩, p2 := ⟨F32.nan, F32.nan⟩, p3 := ⟨F32.nan, F32.nan⟩ } := by
  have hd : (steerLoop F32.sqrt NUM_BIRDS NUM_BIRDS 0 (flockCancel : Birds F32)).dir 1
      = ⟨0, 0⟩ := by
    rw [← Step_dir]; exact flockCancel_binary32_dir
  have hp : (Step F32.sqrt NUM_BIRDS (flockCancel : Birds F32)).pos 1 = ⟨510, 500⟩ := by
    rw [Step_pos_eq _ _ _ 1 (by decide), flockCancel_binary32_dir]
    decide
  refine ⟨flockCancel_real_zero_divisor, fun i _ => flockCancel_binary32_lengths i, hd, ?_, ?_,
    ?_, ?_⟩
  · rw [hd]; decide
  · rw [hd]; decide
  · rw [Step_triangle_eq _ _ _ 1 (by decide), Step_dir]
  · rw [Step_triangle_eq _ _ _ 1 (by decide), hp, flockCancel_binary32_dir]
    decide

end Binary32

end Boids
